import Mathlib

/-!
# Verification of the AA-API enrichment pipeline

Shallow embedding of the core of the `AA-API` repository
(`src/aa-csv-parser.js`, `src/asin-aggregator.js`, `src/pa-api-client.js`,
and the feed generator's `formatProduct`), together with theorems settling
the frozen claims about it.

JavaScript numbers are modelled as exact rationals (`ℚ`); JavaScript's
`undefined`/missing object fields are modelled as `Option`; JS truthiness
of a number is `≠ 0`, of a string is `≠ ""`, of `undefined`/`null` is
false.  Network and timer effects of the enrichment client are modelled by
an explicit environment (one response per batch attempt) and an explicit
trace of the `delay()` calls that the code performs.
-/

namespace AAApi

/-- JS `a || b` for an optional string: `undefined` and the empty string
are falsy, so they fall through to the default. -/
def jsOrString (a : Option String) (b : String) : String :=
  match a with
  | some s => if s = "" then b else s
  | none => b

/-- JS `a || null` for an optional string: an empty string collapses to
`null` (absent). -/
def jsOrNullString (a : Option String) : Option String :=
  match a with
  | some s => if s = "" then none else some s
  | none => none

/-- JS truthiness of an optional number: `undefined`/`null` and `0` are
falsy. -/
def jsTruthyNum (a : Option ℚ) : Bool :=
  match a with
  | some q => decide (q ≠ 0)
  | none => false

/-- JS truthiness of an optional boolean (`undefined` and `false` falsy). -/
def jsTruthyBool (a : Option Bool) : Bool :=
  match a with
  | some b => b
  | none => false

/-- JS truthiness of an optional string (`undefined` and `""` falsy). -/
def jsTruthyStr (a : Option String) : Bool :=
  match a with
  | some s => decide (s ≠ "")
  | none => false

/-- JS `Math.round`: round half toward positive infinity. -/
def jsRound (q : ℚ) : ℚ := ((⌊q + 1/2⌋ : ℤ) : ℚ)

/-- JS `String.prototype.trim()`: strip leading and trailing
whitespace. -/
def jsTrim (s : String) : String :=
  String.mk (((s.data.dropWhile Char.isWhitespace).reverse.dropWhile
    Char.isWhitespace).reverse)

/-- JS `String.prototype.toLowerCase()` (ASCII range, which is all the
column aliases use). -/
def jsToLower (s : String) : String :=
  String.mk (s.data.map Char.toLower)

/-- JS `x || 0` for an optional number (missing and `0` both give `0`). -/
def jsOrZero (a : Option ℚ) : ℚ := a.getD 0

/-!
## `src/pa-api-client.js` — batching (`enrichAsins`, lines 232–236)

The source splits `asinStrings` into slices of `batchSize`:

```js
const batches = [];
for (let i = 0; i < asinStrings.length; i += fullConfig.batchSize) {
  batches.push(asinStrings.slice(i, i + fullConfig.batchSize));
}
```

`chunkBatchesAux` runs the loop with explicit fuel (the loop consumes at
least one element per iteration when `batchSize > 0`, so `xs.length` fuel
suffices); `chunkBatches` is the loop itself.
-/

/-- Fuelled chunking loop body: emit `xs.take b` then continue on
`xs.drop b`. -/
def chunkBatchesAux : ℕ → List String → ℕ → List (List String)
  | 0, _, _ => []
  | _ + 1, [], _ => []
  | fuel + 1, x :: xs, b => (x :: xs).take b :: chunkBatchesAux fuel ((x :: xs).drop b) b

/-- The batch-splitting loop of `enrichAsins`. -/
def chunkBatches (xs : List String) (b : ℕ) : List (List String) :=
  chunkBatchesAux xs.length xs b

theorem chunkBatchesAux_join (fuel : ℕ) :
    ∀ (xs : List String) (b : ℕ), xs.length ≤ fuel → 0 < b →
      (chunkBatchesAux fuel xs b).flatten = xs := by
  induction fuel with
  | zero =>
    intro xs b hlen _
    have : xs = [] := List.eq_nil_of_length_eq_zero (Nat.le_zero.mp hlen)
    subst this
    rfl
  | succ n ih =>
    intro xs b hlen hb
    cases xs with
    | nil => rfl
    | cons x xs =>
      have hdrop : ((x :: xs).drop b).length ≤ n := by
        rw [List.length_drop]
        have : (x :: xs).length - 1 ≤ n := by
          simpa using Nat.pred_le_pred hlen
        exact le_trans (Nat.sub_le_sub_left hb _) this
      simp only [chunkBatchesAux, List.flatten_cons, ih _ b hdrop hb,
        List.take_append_drop]

theorem chunkBatches_join (xs : List String) (b : ℕ) (hb : 0 < b) :
    (chunkBatches xs b).flatten = xs :=
  chunkBatchesAux_join xs.length xs b le_rfl hb

theorem chunkBatchesAux_length (fuel : ℕ) :
    ∀ (xs : List String) (b : ℕ), xs.length ≤ fuel → 0 < b →
      (chunkBatchesAux fuel xs b).length = (xs.length + b - 1) / b := by
  induction fuel with
  | zero =>
    intro xs b hlen hb
    have : xs = [] := List.eq_nil_of_length_eq_zero (Nat.le_zero.mp hlen)
    subst this
    simp [chunkBatchesAux, Nat.div_eq_of_lt (Nat.sub_lt hb Nat.one_pos)]
  | succ n ih =>
    intro xs b hlen hb
    cases xs with
    | nil => simp [chunkBatchesAux, Nat.div_eq_of_lt (Nat.sub_lt hb Nat.one_pos)]
    | cons x xs =>
      have hdrop : ((x :: xs).drop b).length ≤ n := by
        rw [List.length_drop]
        have : (x :: xs).length - 1 ≤ n := by
          simpa using Nat.pred_le_pred hlen
        exact le_trans (Nat.sub_le_sub_left hb _) this
      rw [chunkBatchesAux, List.length_cons, ih _ b hdrop hb, List.length_drop]
      set m := (x :: xs).length with hm
      have hm1 : 1 ≤ m := by simp [hm]
      rcases Nat.lt_or_ge b m with hcase | hcase
      · -- at least one further batch remains
        have e1 : m + b - 1 = (m - 1) + b := by omega
        have e2 : m - b + b - 1 = (m - b - 1) + b := by omega
        have e3 : m - 1 = (m - b - 1) + b := by omega
        rw [e1, e2, Nat.add_div_right _ hb, Nat.add_div_right _ hb, e3,
          Nat.add_div_right _ hb]
      · -- the whole list fits into one batch
        have hdz : m - b = 0 := Nat.sub_eq_zero_of_le hcase
        rw [hdz]
        have h1 : (0 + b - 1) / b = 0 :=
          Nat.div_eq_of_lt (by simpa using Nat.sub_lt hb Nat.one_pos)
        have h2 : (m + b - 1) / b = 1 :=
          Nat.div_eq_of_lt_le (by omega) (by omega)
        rw [h1, h2]

theorem chunkBatches_length (xs : List String) (b : ℕ) (hb : 0 < b) :
    (chunkBatches xs b).length = (xs.length + b - 1) / b :=
  chunkBatchesAux_length xs.length xs b le_rfl hb

theorem chunkBatchesAux_le (fuel : ℕ) :
    ∀ (xs : List String) (b : ℕ) (c : List String),
      c ∈ chunkBatchesAux fuel xs b → c.length ≤ b := by
  induction fuel with
  | zero => intro xs b c hc; simp [chunkBatchesAux] at hc
  | succ n ih =>
    intro xs b c hc
    cases xs with
    | nil => simp [chunkBatchesAux] at hc
    | cons x xs =>
      rw [chunkBatchesAux, List.mem_cons] at hc
      rcases hc with hc | hc
      · subst hc; exact List.length_take_le b (x :: xs)
      · exact ih _ b c hc

theorem chunkBatchesAux_dropLast (fuel : ℕ) :
    ∀ (xs : List String) (b : ℕ), xs.length ≤ fuel → 0 < b →
      ∀ c ∈ (chunkBatchesAux fuel xs b).dropLast, c.length = b := by
  induction fuel with
  | zero =>
    intro xs b hlen _ c hc
    have : xs = [] := List.eq_nil_of_length_eq_zero (Nat.le_zero.mp hlen)
    subst this
    simp [chunkBatchesAux] at hc
  | succ n ih =>
    intro xs b hlen hb c hc
    cases xs with
    | nil => simp [chunkBatchesAux] at hc
    | cons x xs =>
      rw [chunkBatchesAux] at hc
      rcases h0 : chunkBatchesAux n ((x :: xs).drop b) b with _ | ⟨c', cs⟩
      · rw [h0] at hc; simp at hc
      · rw [h0] at hc
        rw [List.dropLast_cons_of_ne_nil (by simp)] at hc
        have hdrop : ((x :: xs).drop b).length ≤ n := by
          rw [List.length_drop]
          have : (x :: xs).length - 1 ≤ n := by
            simpa using Nat.pred_le_pred hlen
          exact le_trans (Nat.sub_le_sub_left hb _) this
        rcases List.mem_cons.mp hc with hc | hc
        · -- `c` is the head batch; the tail then being non-empty forces
          -- a full-size head slice.
          subst hc
          have hne : (x :: xs).drop b ≠ [] := by
            intro hnil
            rw [hnil] at h0
            cases n with
            | zero => simp [chunkBatchesAux] at h0
            | succ k => simp [chunkBatchesAux] at h0
          have hlt : b < (x :: xs).length := by
            by_contra hle
            exact hne (List.drop_eq_nil_of_le (le_of_not_lt hle))
          simpa using List.length_take_of_le (le_of_lt hlt)
        · exact ih _ b hdrop hb c (by rw [h0]; exact hc)

theorem chunkBatches_dropLast (xs : List String) (b : ℕ) (hb : 0 < b) :
    ∀ c ∈ (chunkBatches xs b).dropLast, c.length = b :=
  chunkBatchesAux_dropLast xs.length xs b le_rfl hb

/-!
## `src/pa-api-client.js` — `extractProductData` (lines 50–103)

A PA-API response item.  The optional-chaining paths of the source are
flattened into one record: `titleDisplayValue` is
`item.ItemInfo?.Title?.DisplayValue`, `price` is
`item.Offers?.Listings?.[0]?.Price`, `savingBasis` is
`item.Offers?.Listings?.[0]?.SavingBasis`, `availabilityType` is
`item.Offers?.Listings?.[0]?.Availability?.Type`, and `imageUrl` is
`item.Images?.Primary?.Medium?.URL`.
-/

/-- The `Offers.Listings[0].Price` of a PA-API item. -/
structure PaPrice where
  Amount : ℚ
  Currency : String
deriving DecidableEq

/-- The `Offers.Listings[0].SavingBasis` of a PA-API item. -/
structure PaSavingBasis where
  Amount : ℚ
deriving DecidableEq

/-- A PA-API `GetItems` response item, with the optional-chaining paths
used by `extractProductData` flattened into fields. -/
structure PaItem where
  ASIN : String
  titleDisplayValue : Option String
  price : Option PaPrice
  savingBasis : Option PaSavingBasis
  imageUrl : Option String
  availabilityType : Option String
  DetailPageURL : Option String
deriving DecidableEq

/-- The record returned by `extractProductData`.  The four sale fields are
`Option`s because the source attaches them conditionally via an object
spread. -/
structure ProductData where
  asin : String
  title : String
  price : Option ℚ
  currency : String
  image_url : Option String
  link : String
  availability : String
  is_on_sale : Option Bool
  original_price : Option ℚ
  discount_amount : Option ℚ
  discount_percentage : Option ℚ
deriving DecidableEq

/-- Function `extractProductData(item, associateTag)` from `src/pa-api-client.js`
lines 50–103.  The sale block mirrors the source: the fields are computed
only under `savingBasis && savingBasis.Amount && price` (JS truthiness)
and attached only when `discountAmount > 0`. -/
def extractProductData (item : PaItem) (associateTag : String) : ProductData :=
  let asin := item.ASIN
  let title := jsOrString item.titleDisplayValue "Unknown Product"
  let price : Option ℚ := item.price.map (·.Amount)
  let currency : String :=
    match item.price with
    | some p => p.Currency
    | none => "USD"
  -- `if (savingBasis && savingBasis.Amount && price) { ... }` with
  -- `isOnSale = discountAmount > 0` and `...(isOnSale && {...})`
  let saleInfo : Option (ℚ × ℚ × ℚ) :=
    match item.savingBasis, price with
    | some savingBasis, some p =>
      if savingBasis.Amount ≠ 0 ∧ p ≠ 0 then
        let originalPrice := savingBasis.Amount
        let discountAmount := originalPrice - p
        let discountPercentage := jsRound (discountAmount / originalPrice * 100)
        if discountAmount > 0 then
          some (originalPrice, discountAmount, discountPercentage)
        else none
      else none
    | _, _ => none
  let imageUrl := jsOrNullString item.imageUrl
  let availability := jsOrString item.availabilityType "Unknown"
  let link := jsOrString item.DetailPageURL
    ("https://www.amazon.com/dp/" ++ asin ++ "?tag=" ++ associateTag)
  { asin := asin
    title := title
    price := price
    currency := currency
    image_url := imageUrl
    link := link
    availability := availability
    is_on_sale := saleInfo.map (fun _ => true)
    original_price := saleInfo.map (·.1)
    discount_amount := saleInfo.map (·.2.1)
    discount_percentage := saleInfo.map (·.2.2) }

/-- The sale condition exactly as the spec words it (`Modelled from the
spec`, for comparison with the source's condition): the response supplies
a list/original price (`SavingBasis`) strictly greater than the current
price. -/
def specSaleCondition (item : PaItem) : Bool :=
  match item.savingBasis, item.price with
  | some savingBasis, some p => decide (p.Amount < savingBasis.Amount)
  | _, _ => false

/-- The condition under which the source actually attaches the sale
fields: `savingBasis` present with truthy (non-zero) amount, a truthy
(present, non-zero) price, and a strictly positive discount. -/
def codeSaleCondition (item : PaItem) : Prop :=
  ∃ savingBasis p, item.savingBasis = some savingBasis ∧ item.price = some p ∧
    savingBasis.Amount ≠ 0 ∧ p.Amount ≠ 0 ∧ p.Amount < savingBasis.Amount

/-!
## `src/pa-api-client.js` — retry and the sequential batch loop

`getItemsBatch` performs the signed network request; its outcome for a
given batch attempt is an input of the model, provided by an environment
`env : ℕ → BatchResponse` (attempt number, 1-based as in the source, to
outcome).  A successful response carries the `ItemsResult.Items` array and
the `Errors` array; a failed one carries the extracted error message
string (`getItemsBatch` always normalises `response.error` to a string in
the version with sale detection, lines 156–181).
-/

/-- An entry of the `Errors` array of a PA-API batch response. -/
structure BatchItemError where
  ASIN : String
  Code : Option String
  Message : Option String
deriving DecidableEq

/-- The payload of a successful `getItemsBatch` call:
`data.ItemsResult?.Items || []` and `data.Errors || []` (the `|| []`
defaults are folded into the lists). -/
structure BatchData where
  items : List PaItem
  errors : List BatchItemError
deriving DecidableEq

/-- Outcome of one `getItemsBatch` call. -/
inductive BatchResponse where
  | success (data : BatchData)
  | failure (error : String)
deriving DecidableEq

/-- Function `enrichBatchWithRetry` (lines 191–209), with the recursion on
`attempt` rephrased structurally on `remaining := retryAttempts - attempt`
(the source's guard `attempt < retryAttempts` is exactly
`remaining ≠ 0`).  Returns the final response together with the list of
backoff delays (`retryDelayMs * 2 ** (attempt - 1)`) slept between
attempts, in order. -/
def enrichBatchRetryAux (env : ℕ → BatchResponse) (retryDelayMs : ℕ) :
    ℕ → ℕ → BatchResponse × List ℕ
  | attempt, remaining =>
    match env attempt, remaining with
    | .success d, _ => (.success d, [])
    | .failure e, 0 => (.failure e, [])
    | .failure _, remaining' + 1 =>
      let delayMs := retryDelayMs * 2 ^ (attempt - 1)
      let rest := enrichBatchRetryAux env retryDelayMs (attempt + 1) remaining'
      (rest.1, delayMs :: rest.2)

/-- Function `enrichBatchWithRetry(asins, config, attempt = 1)`: the entry point of
the retry recursion.  The batch contents do not influence control flow
(they are only forwarded to `getItemsBatch`, which the environment
models), so they are not a parameter here. -/
def enrichBatchWithRetry (env : ℕ → BatchResponse)
    (retryAttempts retryDelayMs : ℕ) (attempt : ℕ := 1) :
    BatchResponse × List ℕ :=
  enrichBatchRetryAux env retryDelayMs attempt (retryAttempts - attempt)

/-- An entry of the accumulated `errors` list of `enrichAsins`. -/
structure EnrichError where
  asin : String
  code : String
  message : String
deriving DecidableEq

/-- A `delay(ms)` call performed by `enrichAsins`: either an exponential
backoff sleep inside `enrichBatchWithRetry` or the inter-batch
rate-limiting sleep of `requestDelayMs`. -/
inductive DelayEvent where
  | retry (ms : ℕ)
  | interBatch (ms : ℕ)
deriving DecidableEq

/-- The configuration fields of `DEFAULT_CONFIG` (lines 18–33) that the
enrichment loop consumes, plus the caller-supplied `associateTag`. -/
structure PaConfig where
  batchSize : ℕ
  retryAttempts : ℕ
  retryDelayMs : ℕ
  requestDelayMs : ℕ
  associateTag : String
deriving DecidableEq

/-- Constant `DEFAULT_CONFIG` (lines 18–33): `batchSize: 10`, `retryAttempts: 3`,
`retryDelayMs: 1000`, `requestDelayMs: 1100`. -/
def DEFAULT_CONFIG : PaConfig :=
  { batchSize := 10
    retryAttempts := 3
    retryDelayMs := 1000
    requestDelayMs := 1100
    associateTag := "tag-20" }

/-- Processing of one batch response inside the `for (const batch of
batches)` loop (lines 252–316): on success, every response item is pushed
through `extractProductData` and every `Errors` entry is recorded as
failed with code `error.Code || 'UNKNOWN_ERROR'` and message
`error.Message || 'Item not accessible'`; on failure, every identifier of
the batch is recorded as failed with the synthetic code `BATCH_FAILED`. -/
def processBatchResponse (response : BatchResponse) (batch : List String)
    (associateTag : String) :
    List ProductData × List String × List EnrichError :=
  match response with
  | .success data =>
    (data.items.map (fun item => extractProductData item associateTag),
     data.errors.map (·.ASIN),
     data.errors.map (fun e =>
       { asin := e.ASIN
         code := jsOrString e.Code "UNKNOWN_ERROR"
         message := jsOrString e.Message "Item not accessible" }))
  | .failure err =>
    ([], batch,
     batch.map (fun asin =>
       { asin := asin, code := "BATCH_FAILED", message := err }))

/-- The sequential batch loop of `enrichAsins` (lines 246–322).
`batchNumber` is 1-based and `total` is `batches.length`; the inter-batch
`delay(requestDelayMs)` is performed only when `batchNumber <
batches.length`.  `envB` gives the `getItemsBatch` outcome per
(batch number, attempt).  Returns the accumulated `enriched`, `failed`
and `errors` lists and the trace of `delay()` calls, in order. -/
def runBatches (cfg : PaConfig) (envB : ℕ → ℕ → BatchResponse) :
    List (List String) → ℕ → ℕ →
    List ProductData × List String × List EnrichError × List DelayEvent
  | [], _, _ => ([], [], [], [])
  | batch :: rest, batchNumber, total =>
    let response := enrichBatchWithRetry (envB batchNumber)
      cfg.retryAttempts cfg.retryDelayMs
    let processed := processBatchResponse response.1 batch cfg.associateTag
    let interDelay : List DelayEvent :=
      if batchNumber < total then [.interBatch cfg.requestDelayMs] else []
    let tail := runBatches cfg envB rest (batchNumber + 1) total
    (processed.1 ++ tail.1,
     processed.2.1 ++ tail.2.1,
     processed.2.2 ++ tail.2.2.1,
     response.2.map .retry ++ interDelay ++ tail.2.2.2)

/-- The record returned by `enrichAsins`, flattened (`metadata.*` fields
inlined).  The source returns `errors` only when non-empty
(`errors.length > 0 ? errors : undefined`), hence the `Option`.
`delayTrace` is not part of the JS return value: it records the `delay()`
calls the run performed. -/
structure EnrichResult where
  success : Bool
  products : List ProductData
  totalAsins : ℕ
  enrichedCount : ℕ
  failedCount : ℕ
  successRate : ℚ
  batchCount : ℕ
  failed : List String
  errors : Option (List EnrichError)
  delayTrace : List DelayEvent
deriving DecidableEq

/-- Function `enrichAsins(asins, config)` (lines 217–343) for a plain identifier
list (the `typeof item === 'string'` branch, under which `asinMap` stays
empty and each extracted product is pushed unmerged). -/
def enrichAsins (asins : List String) (cfg : PaConfig)
    (envB : ℕ → ℕ → BatchResponse) : EnrichResult :=
  let batches := chunkBatches asins cfg.batchSize
  let acc := runBatches cfg envB batches 1 batches.length
  let enriched := acc.1
  let failed := acc.2.1
  let errors := acc.2.2.1
  let successRate : ℚ :=
    if asins.length > 0 then (enriched.length : ℚ) / (asins.length : ℚ) else 0
  { success := true
    products := enriched
    totalAsins := asins.length
    enrichedCount := enriched.length
    failedCount := failed.length
    successRate := successRate
    batchCount := batches.length
    failed := failed
    errors := if errors.length > 0 then some errors else none
    delayTrace := acc.2.2.2 }

/-!
## `src/aa-csv-parser.js`

The operative (second, CSV+XLSX) version of the file: `COLUMN_MAPPINGS`
(lines 372–383), `isValidASIN` (390–396), `findColumn` (404–414),
`mapRowToProduct` (422–464), `parseCSV` (553–666), the column-resolution
part of `parseFile`'s XLSX branch (692–774) and `parseCSVString`
(787–843).  A CSV row is modelled as a partial map from column name to
cell string, as produced by Papa Parse with `header: true`.
-/

/-- The character-class test of the ASIN regex
`/^[B0-9][A-Z0-9]{9}$/i`: leading character `B`/`b` or a digit, the rest
ASCII letters or digits (case-insensitively, because of the `/i` flag). -/
def asinPattern : List Char → Bool
  | c :: rest => (c = 'B' || c = 'b' || c.isDigit) &&
      rest.all (fun d => d.isAlpha || d.isDigit)
  | [] => false

/-- Function `isValidASIN(asin)` (lines 390–396): 10 characters after trimming,
matching `/^[B0-9][A-Z0-9]{9}$/i`. -/
def isValidASIN (asin : String) : Bool :=
  let s := jsTrim asin
  decide (s.length = 10) && asinPattern s.data

/-- Function `findColumn(headers, possibleNames)` (lines 404–414): first alias
whose lower-cased form occurs among the lower-cased, trimmed headers;
returns the original header. -/
def findColumn (headers : List String) (possibleNames : List String) :
    Option String :=
  let lowerHeaders := headers.map (fun h => jsTrim (jsToLower h))
  possibleNames.findSome? (fun name =>
    (lowerHeaders.findIdx? (· = jsToLower name)).bind (fun index => headers[index]?))

/-- The resolved column map (`columnMap` in the source): for each
semantic role, the matching header if any. -/
structure ColumnMap where
  asin : Option String
  orderedItems : Option String
  shippedRevenue : Option String
  earnings : Option String
  clicks : Option String
  conversionRate : Option String
  itemsShipped : Option String
  tag : Option String
  productName : Option String
  dateShipped : Option String
deriving DecidableEq

/-- Constant `COLUMN_MAPPINGS` (lines 372–383) applied to a header list: the
`columnMap`-building loop shared by `parseCSV`, `parseFile` and
`parseCSVString`. -/
def buildColumnMap (headers : List String) : ColumnMap :=
  { asin := findColumn headers ["asin", "product asin", "product_asin", "linking asin"]
    orderedItems := findColumn headers ["ordered items", "ordered_items",
      "items ordered", "qty ordered", "quantity ordered", "qty",
      "items shipped", "items_shipped"]
    shippedRevenue := findColumn headers ["shipped revenue", "shipped_revenue",
      "revenue", "shipped earnings", "product revenue", "revenue($)", "revenue ($)"]
    earnings := findColumn headers ["earnings", "publisher earnings", "commission",
      "your earnings", "affiliate earnings", "ad fees", "ad fees($)", "ad fees ($)"]
    clicks := findColumn headers ["clicks", "link clicks", "click count", "total clicks"]
    conversionRate := findColumn headers ["conversion rate", "conversion_rate", "conversion"]
    itemsShipped := findColumn headers ["items shipped", "items_shipped",
      "shipped items", "qty shipped"]
    tag := findColumn headers ["tag", "tracking id", "tracking_id", "associate tag"]
    productName := findColumn headers ["name", "product name", "title", "product title"]
    dateShipped := findColumn headers ["date shipped", "date_shipped",
      "ship date", "shipped date"] }

/-- Value of a digit string. -/
def digitsVal (ds : List Char) : ℕ :=
  ds.foldl (fun acc c => 10 * acc + (c.toNat - '0'.toNat)) 0

/-- JS `parseFloat` on an already-cleaned cell (no `$`, `,` or
whitespace): optional sign, then a decimal-digit prefix with an optional
fractional part; `none` models `NaN` (no parsable prefix).  Exponent
notation, which never occurs in the report cells, is not modelled. -/
def parseFloatQ (s : String) : Option ℚ :=
  let rec core (sign : ℚ) (cs : List Char) : Option ℚ :=
    let intPart := cs.takeWhile Char.isDigit
    let rest := cs.dropWhile Char.isDigit
    match rest with
    | '.' :: rest' =>
      let fracPart := rest'.takeWhile Char.isDigit
      if intPart = [] ∧ fracPart = [] then none
      else some (sign * ((digitsVal intPart : ℚ) +
        (digitsVal fracPart : ℚ) / (10 ^ fracPart.length : ℚ)))
    | _ =>
      if intPart = [] then none
      else some (sign * (digitsVal intPart : ℚ))
  match s.data with
  | '-' :: cs => core (-1) cs
  | '+' :: cs => core 1 cs
  | cs => core 1 cs

/-- Function `parseNumber(value)` inside `mapRowToProduct` (lines 431–437): a
falsy cell (`undefined` or the empty string) is `0`; otherwise currency
symbols, commas and whitespace are stripped and the result parsed as a
float, with `NaN` coerced to `0`. -/
def parseNumber (value : Option String) : ℚ :=
  match value with
  | none => 0
  | some v =>
    if v = "" then 0
    else
      let cleaned := String.mk (v.data.filter
        (fun c => ¬(c = '$' ∨ c = ',' ∨ c.isWhitespace)))
      match parseFloatQ cleaned with
      | some parsed => parsed
      | none => 0

/-- A parsed line item (`product` object built by `mapRowToProduct`). -/
structure ProductRow where
  asin : String
  ordered_items : ℚ
  shipped_revenue : ℚ
  earnings : ℚ
  clicks : ℚ
  items_shipped : Option ℚ
  conversion_rate : Option ℚ
  tag : Option String
deriving DecidableEq

/-- Function `mapRowToProduct(row, columnMap)` (lines 422–464).  `row` maps a
column name to the cell string (`row[name]`); `row[columnMap.X]` with an
unresolved column is `undefined`, modelled by `columnMap.X.bind row`.
The identifier is trimmed but never case-normalised. -/
def mapRowToProduct (row : String → Option String) (columnMap : ColumnMap) :
    Option ProductRow :=
  match (columnMap.asin.bind row).map jsTrim with
  | none => none  -- `isValidASIN(undefined)` is false, so the row is skipped
  | some asin =>
    if ¬ isValidASIN asin then none
    else
      let ordered_items := parseNumber (columnMap.orderedItems.bind row)
      let clicks := parseNumber (columnMap.clicks.bind row)
      some { asin := asin
             ordered_items := ordered_items
             shipped_revenue := parseNumber (columnMap.shippedRevenue.bind row)
             earnings := parseNumber (columnMap.earnings.bind row)
             clicks := clicks
             items_shipped :=
               if columnMap.itemsShipped.isSome then
                 some (parseNumber (columnMap.itemsShipped.bind row))
               else none
             conversion_rate :=
               if columnMap.conversionRate.isSome then
                 some (parseNumber (columnMap.conversionRate.bind row))
               else if clicks > 0 ∧ ordered_items > 0 then
                 some (ordered_items / clicks)
               else none
             tag := (columnMap.tag.bind row).map jsTrim }

/-- The row-parsing loop shared by `parseCSV` and `parseFile`
(lines 608–632): valid rows are collected; invalid ones are recorded with
their 1-based row number only when `skipInvalidRows` is false. -/
def parseRowsAux (columnMap : ColumnMap) (skipInvalidRows : Bool) :
    List (String → Option String) → ℕ →
    List ProductRow × List (ℕ × String)
  | [], _ => ([], [])
  | row :: rest, i =>
    let tail := parseRowsAux columnMap skipInvalidRows rest (i + 1)
    match mapRowToProduct row columnMap with
    | some product => (product :: tail.1, tail.2)
    | none =>
      (tail.1,
       if skipInvalidRows then tail.2
       else (i + 2, "Invalid or missing ASIN") :: tail.2)

/-- The result record of the parsing entry points, with the metadata
fields inlined.  `clicksWarning` records the `console.warn` emitted when
the `clicks` column is unresolved (lines 600–602 / 717–719). -/
structure ParseResult where
  success : Bool
  error : Option String
  products : List ProductRow
  totalRows : ℕ
  validProducts : ℕ
  invalidRows : ℕ
  uniqueAsins : ℕ
  totalOrderedItems : ℚ
  totalRevenue : ℚ
  totalEarnings : ℚ
  totalClicks : ℚ
  averageConversionRate : ℚ
  clicksWarning : Bool
  rowErrors : List (ℕ × String)

/-- The `Missing required columns` error message (lines 592–597). -/
def missingColumnsMessage (missingFields : List String) (headers : List String) :
    String :=
  "Missing required columns. Could not find: " ++
    String.intercalate ", " missingFields ++
    "\nAvailable columns: " ++ String.intercalate ", " headers

/-- The required-role check of `parseCSV`/`parseFile`
(lines 588–589 / 705–706): `clicks` is *not* required there. -/
def missingRequiredFields (columnMap : ColumnMap) : List String :=
  (if columnMap.asin.isSome then [] else ["asin"]) ++
  (if columnMap.orderedItems.isSome then [] else ["orderedItems"]) ++
  (if columnMap.shippedRevenue.isSome then [] else ["shippedRevenue"]) ++
  (if columnMap.earnings.isSome then [] else ["earnings"])

/-- The required-role check of `parseCSVString` (lines 808–809), which
still lists `clicks` as required. -/
def missingRequiredFieldsWithClicks (columnMap : ColumnMap) : List String :=
  missingRequiredFields columnMap ++
  (if columnMap.clicks.isSome then [] else ["clicks"])

/-- The successful-result construction shared by the entry points
(lines 634–656): products plus the metadata sums. -/
def buildParseSuccess (totalRows : ℕ)
    (parsed : List ProductRow × List (ℕ × String)) (clicksWarning : Bool) :
    ParseResult :=
  let products := parsed.1
  let totalClicks := (products.map (·.clicks)).sum
  let totalOrderedItems := (products.map (·.ordered_items)).sum
  { success := true
    error := none
    products := products
    totalRows := totalRows
    validProducts := products.length
    invalidRows := totalRows - products.length
    uniqueAsins := ((products.map (·.asin)).eraseDups).length
    totalOrderedItems := totalOrderedItems
    totalRevenue := (products.map (·.shipped_revenue)).sum
    totalEarnings := (products.map (·.earnings)).sum
    totalClicks := totalClicks
    averageConversionRate :=
      if totalClicks > 0 then totalOrderedItems / totalClicks else 0
    clicksWarning := clicksWarning
    rowErrors := parsed.2 }

/-- Function `parseCSV(filePath, options)` (lines 553–666) after the file has been
read and split by Papa Parse into `headers` and `rows`: the required-role
check (`clicks` optional, with a warning), the row loop and the metadata.
A missing required role throws, which the surrounding `try` converts into
a `success: false` result. -/
def parseCSV (headers : List String) (rows : List (String → Option String))
    (skipInvalidRows : Bool := true) : ParseResult :=
  let columnMap := buildColumnMap headers
  let missingFields := missingRequiredFields columnMap
  if missingFields.length > 0 then
    { success := false
      error := some (missingColumnsMessage missingFields headers)
      products := []
      totalRows := 0, validProducts := 0, invalidRows := 0, uniqueAsins := 0
      totalOrderedItems := 0, totalRevenue := 0, totalEarnings := 0
      totalClicks := 0, averageConversionRate := 0
      clicksWarning := false
      rowErrors := [] }
  else
    buildParseSuccess rows.length
      (parseRowsAux columnMap skipInvalidRows rows 0)
      (columnMap.clicks = none)

/-- The XLSX branch of `parseFile` (lines 692–774) after `parseXLSX` has
produced the row objects (with `headers` the keys of the first row): same
required-role check as `parseCSV` (`clicks` optional, with a warning),
but the throw on a missing required role is *not* caught inside
`parseFile`, hence the `Except`. -/
def parseFileXlsx (headers : List String)
    (rows : List (String → Option String)) (skipInvalidRows : Bool := true) :
    Except String ParseResult :=
  let columnMap := buildColumnMap headers
  let missingFields := missingRequiredFields columnMap
  if missingFields.length > 0 then
    .error (missingColumnsMessage missingFields headers)
  else
    .ok (buildParseSuccess rows.length
      (parseRowsAux columnMap skipInvalidRows rows 0)
      (columnMap.clicks = none))

/-- Function `parseCSVString(csvContent, options)` (lines 787–843): `clicks` is in
its `requiredFields`, and the throw on a missing required role is not
caught anywhere in the function, hence the `Except`.  Invalid rows are
always skipped (no strict mode) and no clicks warning is emitted. -/
def parseCSVString (headers : List String)
    (rows : List (String → Option String)) : Except String ParseResult :=
  let columnMap := buildColumnMap headers
  let missingFields := missingRequiredFieldsWithClicks columnMap
  if missingFields.length > 0 then
    .error (missingColumnsMessage missingFields headers)
  else
    .ok (buildParseSuccess rows.length
      ((rows.filterMap (fun row => mapRowToProduct row columnMap), []))
      false)

/-!
## `src/asin-aggregator.js`

`aggregateByAsin` (lines 31–91), `rankProducts` (99–118), `filterProducts`
(126–167) and `aggregateAndRank` (178–241).  The JS `Map` keyed by `asin`
is modelled as an insertion-ordered association list.
-/

/-- An aggregated product: the accumulator object of `aggregateByAsin`
(initially a copy of the incoming row) with the derived metrics and the
rank attached later, hence those are `Option`s.  A `tags` entry can be
`undefined` when the first row of a group had no tag (line 52 puts the
possibly-undefined `existing.tag` into the array). -/
structure AggProduct where
  asin : String
  ordered_items : ℚ
  shipped_revenue : ℚ
  earnings : ℚ
  clicks : ℚ
  items_shipped : Option ℚ
  conversion_rate : Option ℚ
  tag : Option String
  tags : Option (List (Option String))
  revenue_per_click : Option ℚ
  average_order_value : Option ℚ
  epc : Option ℚ
  rank : Option ℕ
deriving DecidableEq

/-- The `asinMap.set(asin, { ...product })` branch for a new identifier
(line 61). -/
def initialAgg (product : ProductRow) : AggProduct :=
  { asin := product.asin
    ordered_items := product.ordered_items
    shipped_revenue := product.shipped_revenue
    earnings := product.earnings
    clicks := product.clicks
    items_shipped := product.items_shipped
    conversion_rate := product.conversion_rate
    tag := product.tag
    tags := none
    revenue_per_click := none
    average_order_value := none
    epc := none
    rank := none }

/-- The tag-collection part of the merge branch (lines 50–58). -/
def mergeTags (existing : AggProduct) (productTag : Option String) : AggProduct :=
  match productTag with
  | some t =>
    if t ≠ "" ∧ some t ≠ existing.tag then
      let withTags :=
        match existing.tags with
        | none => { existing with tags := some [existing.tag], tag := none }
        | some _ => existing
      match withTags.tags with
      | some ts =>
        if some t ∈ ts then withTags
        else { withTags with tags := some (ts ++ [some t]) }
      | none => withTags
    else existing
  | none => existing

/-- The merge branch of `aggregateByAsin` for an already-seen identifier
(lines 38–58). -/
def mergeProduct (existing : AggProduct) (product : ProductRow) : AggProduct :=
  let merged := { existing with
    ordered_items := existing.ordered_items + product.ordered_items
    shipped_revenue := existing.shipped_revenue + product.shipped_revenue
    earnings := existing.earnings + product.earnings
    clicks := existing.clicks + product.clicks }
  let merged :=
    match product.items_shipped with
    | some v => { merged with items_shipped := some (jsOrZero merged.items_shipped + v) }
    | none => merged
  mergeTags merged product.tag

/-- One step of the `products.forEach` loop over the insertion-ordered
map: merge into the existing entry for `product.asin` or append a new
one. -/
def upsertByAsin : List AggProduct → ProductRow → List AggProduct
  | [], product => [initialAgg product]
  | e :: rest, product =>
    if e.asin = product.asin then mergeProduct e product :: rest
    else e :: upsertByAsin rest product

/-- The derived-metrics pass of `aggregateByAsin` (lines 66–88). -/
def computeDerived (product : AggProduct) : AggProduct :=
  { product with
    conversion_rate :=
      some (if product.clicks > 0 then product.ordered_items / product.clicks else 0)
    revenue_per_click :=
      some (if product.clicks > 0 then product.shipped_revenue / product.clicks else 0)
    average_order_value :=
      some (if product.ordered_items > 0 then
        product.shipped_revenue / product.ordered_items else 0)
    epc :=
      some (if product.clicks > 0 then product.earnings / product.clicks else 0) }

/-- Function `aggregateByAsin(products)` (lines 31–91). -/
def aggregateByAsin (products : List ProductRow) : List AggProduct :=
  (products.foldl upsertByAsin []).map computeDerived

/-- Constant `RANKING_STRATEGIES` (lines 18–24): the sort key per ranking metric;
each comparator is `(a, b) => b.key - a.key`, a descending numeric sort.
In the pipeline the derived keys are always present (set by
`aggregateByAsin`); an absent key would make the JS comparator return
`NaN`, leaving the order implementation-defined, and is modelled as 0. -/
def RANKING_STRATEGIES (rankBy : String) : Option (AggProduct → ℚ) :=
  match rankBy with
  | "ordered_items" => some (·.ordered_items)
  | "shipped_revenue" => some (·.shipped_revenue)
  | "earnings" => some (·.earnings)
  | "conversion_rate" => some (fun p => p.conversion_rate.getD 0)
  | "revenue_per_click" => some (fun p => p.revenue_per_click.getD 0)
  | _ => none

/-- Function `rankProducts(products, rankBy)` (lines 99–118): stable descending
sort by the selected key, then `rank = index + 1` per sorted position.
An unknown metric throws, modelled by `Except.error`. -/
def rankProducts (products : List AggProduct)
    (rankBy : String := "ordered_items") : Except String (List AggProduct) :=
  match RANKING_STRATEGIES rankBy with
  | none =>
    .error ("Invalid ranking strategy: " ++ rankBy ++
      ". Available: ordered_items, shipped_revenue, earnings, conversion_rate, revenue_per_click")
  | some key =>
    let ranked := products.mergeSort (fun a b => decide (key b ≤ key a))
    .ok (ranked.mapIdx (fun index product => { product with rank := some (index + 1) }))

/-- The optional filter criteria of `filterProducts` (lines 126–167). -/
structure Filters where
  minOrderedItems : Option ℚ := none
  minRevenue : Option ℚ := none
  minEarnings : Option ℚ := none
  minConversionRate : Option ℚ := none
  minClicks : Option ℚ := none
  excludeAsins : Option (List String) := none
  includeAsins : Option (List String) := none
deriving DecidableEq

/-- Function `filterProducts(products, filters)` (lines 126–167), applying each
supplied criterion in source order. -/
def filterProducts (products : List AggProduct) (filters : Filters) :
    List AggProduct :=
  let filtered := products
  let filtered :=
    match filters.minOrderedItems with
    | some m => filtered.filter (fun p => decide (m ≤ p.ordered_items))
    | none => filtered
  let filtered :=
    match filters.minRevenue with
    | some m => filtered.filter (fun p => decide (m ≤ p.shipped_revenue))
    | none => filtered
  let filtered :=
    match filters.minEarnings with
    | some m => filtered.filter (fun p => decide (m ≤ p.earnings))
    | none => filtered
  let filtered :=
    match filters.minConversionRate with
    | some m => filtered.filter (fun p =>
        match p.conversion_rate with
        | some c => decide (m ≤ c)
        | none => false)
    | none => filtered
  let filtered :=
    match filters.minClicks with
    | some m => filtered.filter (fun p => decide (m ≤ p.clicks))
    | none => filtered
  let filtered :=
    match filters.excludeAsins with
    | some ex => filtered.filter (fun p => decide (p.asin ∉ ex))
    | none => filtered
  let filtered :=
    match filters.includeAsins with
    | some inc => filtered.filter (fun p => decide (p.asin ∈ inc))
    | none => filtered
  filtered

/-- JS truthiness of the optional `topN` (`null`/`undefined` and `0`
falsy). -/
def jsTruthyInt (a : Option ℤ) : Bool :=
  match a with
  | some n => decide (n ≠ 0)
  | none => false

/-- JS `list.slice(0, e)`: a negative end counts from the end of the
list. -/
def jsSliceEnd (l : List α) (e : ℤ) : List α :=
  l.take (if e < 0 then ((l.length : ℤ) + e).toNat else e.toNat)

/-- The options object of `aggregateAndRank` with its defaults
(lines 179–183). -/
structure AggOptions where
  rankBy : String := "ordered_items"
  topN : Option ℤ := none
  filters : Filters := {}
deriving DecidableEq

/-- The `summary` statistics of `aggregateAndRank` (lines 199–229). -/
structure AggSummary where
  totalOrderedItems : ℚ
  totalRevenue : ℚ
  totalEarnings : ℚ
  totalClicks : ℚ
  avgOrderedItems : ℚ
  avgRevenue : ℚ
  avgEarnings : ℚ
  avgConversionRate : ℚ
  avgRevenuePerClick : ℚ
  avgEPC : ℚ
deriving DecidableEq

/-- The `metadata` of `aggregateAndRank`.  The `topN` metadata field is
`topN || 'all'`; `none` encodes the string `'all'` (reported whenever
`topN` is falsy). -/
structure AggMetadata where
  totalProducts : ℕ
  filteredProducts : ℕ
  returnedProducts : ℕ
  rankingMetric : String
  topN : Option ℤ
  summary : AggSummary
deriving DecidableEq

/-- The result of `aggregateAndRank`; the catch branch (lines 233–240)
returns empty products and an empty metadata object, modelled as
`none`. -/
structure AggResult where
  success : Bool
  error : Option String
  products : List AggProduct
  metadata : Option AggMetadata
deriving DecidableEq

/-- Function `aggregateAndRank(products, options)` (lines 178–241): aggregate,
filter, rank, then `topN ? ranked.slice(0, topN) : ranked`, plus the
summary statistics over the returned products. -/
def aggregateAndRank (products : List ProductRow) (options : AggOptions := {}) :
    AggResult :=
  let rankBy := options.rankBy
  let topN := options.topN
  let filters := options.filters
  let aggregated := aggregateByAsin products
  let filtered := filterProducts aggregated filters
  match rankProducts filtered rankBy with
  | .error e =>
    { success := false, error := some e, products := [], metadata := none }
  | .ok ranked =>
    let topProducts :=
      if jsTruthyInt topN then jsSliceEnd ranked (topN.getD 0) else ranked
    let totalOrderedItems := (topProducts.map (·.ordered_items)).sum
    let totalRevenue := (topProducts.map (·.shipped_revenue)).sum
    let totalEarnings := (topProducts.map (·.earnings)).sum
    let totalClicks := (topProducts.map (·.clicks)).sum
    let n : ℚ := (topProducts.length : ℚ)
    { success := true
      error := none
      products := topProducts
      metadata := some
        { totalProducts := aggregated.length
          filteredProducts := filtered.length
          returnedProducts := topProducts.length
          rankingMetric := rankBy
          topN := if jsTruthyInt topN then topN else none
          summary :=
            { totalOrderedItems := totalOrderedItems
              totalRevenue := totalRevenue
              totalEarnings := totalEarnings
              totalClicks := totalClicks
              avgOrderedItems := if topProducts.length > 0 then totalOrderedItems / n else 0
              avgRevenue := if topProducts.length > 0 then totalRevenue / n else 0
              avgEarnings := if topProducts.length > 0 then totalEarnings / n else 0
              avgConversionRate :=
                if totalClicks > 0 then totalOrderedItems / totalClicks else 0
              avgRevenuePerClick :=
                if totalClicks > 0 then totalRevenue / totalClicks else 0
              avgEPC := if totalClicks > 0 then totalEarnings / totalClicks else 0 } } }

/-!
## `src/feed-generator.js` — `formatProduct` (lines 295–329)

(the feed-generator source is appended to `src/aws-signature-v4.js` in
this checkout.)  Its input is an arbitrary enriched-product object — in
the pipeline, an aggregated product merged with `extractProductData`
output — modelled as a record of optional fields; a field holding `none`
corresponds to a missing/`undefined` JS property, which is what the
immediately following `JSON.stringify` of the feed observes.
-/

/-- The enriched-product object consumed by `formatProduct`. -/
structure JsProduct where
  asin : String
  title : Option String := none
  price : Option ℚ := none
  currency : Option String := none
  image_url : Option String := none
  link : Option String := none
  rank : Option ℚ := none
  ordered_items : Option ℚ := none
  shipped_revenue : Option ℚ := none
  earnings : Option ℚ := none
  clicks : Option ℚ := none
  conversion_rate : Option ℚ := none
  items_shipped : Option ℚ := none
  revenue_per_click : Option ℚ := none
  epc : Option ℚ := none
  average_order_value : Option ℚ := none
  cluster : Option String := none
  availability : Option String := none
  tags : Option (List (Option String)) := none
  tag : Option String := none
  is_on_sale : Option Bool := none
  original_price : Option ℚ := none
  discount_amount : Option ℚ := none
  discount_percentage : Option ℚ := none
deriving DecidableEq

/-- The formatted feed entry returned by `formatProduct`. -/
structure FormattedProduct where
  asin : String
  title : String
  price : Option ℚ
  currency : String
  image_url : Option String
  link : String
  rank : Option ℚ
  ordered_items : ℚ
  shipped_revenue : ℚ
  earnings : ℚ
  clicks : ℚ
  conversion_rate : ℚ
  items_shipped : Option ℚ
  revenue_per_click : Option ℚ
  epc : Option ℚ
  average_order_value : Option ℚ
  cluster : Option String
  availability : Option String
  tags : Option (List (Option String))
  tag : Option String
  is_on_sale : Option Bool
  original_price : Option ℚ
  discount_amount : Option ℚ
  discount_percentage : Option ℚ
deriving DecidableEq

/-- Function `formatProduct(product, associateTag)` (lines 295–329).  The optional
blocks mirror the source's conditional spreads: `!== undefined` guards
for the metric extras, truthiness guards for `cluster`, `availability`,
`tags` and `tag` (an array is always truthy, so `tags` passes through),
and the sale block is attached exactly when `product.is_on_sale` is
truthy, passing the other three sale fields through from the input. -/
def formatProduct (product : JsProduct) (associateTag : String) :
    FormattedProduct :=
  { asin := product.asin
    title := jsOrString product.title "Unknown Product"
    price := product.price
    currency := jsOrString product.currency "USD"
    image_url := product.image_url
    link := jsOrString product.link
      ("https://www.amazon.com/dp/" ++ product.asin ++ "?tag=" ++ associateTag)
    rank := product.rank
    ordered_items := jsOrZero product.ordered_items
    shipped_revenue := jsOrZero product.shipped_revenue
    earnings := jsOrZero product.earnings
    clicks := jsOrZero product.clicks
    conversion_rate := jsOrZero product.conversion_rate
    items_shipped := product.items_shipped
    revenue_per_click := product.revenue_per_click
    epc := product.epc
    average_order_value := product.average_order_value
    cluster := if jsTruthyStr product.cluster then product.cluster else none
    availability := if jsTruthyStr product.availability then product.availability else none
    tags := product.tags
    tag := if jsTruthyStr product.tag then product.tag else none
    is_on_sale := if jsTruthyBool product.is_on_sale then product.is_on_sale else none
    original_price := if jsTruthyBool product.is_on_sale then product.original_price else none
    discount_amount := if jsTruthyBool product.is_on_sale then product.discount_amount else none
    discount_percentage := if jsTruthyBool product.is_on_sale then product.discount_percentage else none }

/-- All-or-nothing predicate on the four sale fields, as the spec words
it: either all present or all absent. -/
def saleAllOrNothing (is_on_sale : Option Bool)
    (original_price discount_amount discount_percentage : Option ℚ) : Prop :=
  (is_on_sale.isSome ∧ original_price.isSome ∧ discount_amount.isSome ∧
    discount_percentage.isSome) ∨
  (is_on_sale = none ∧ original_price = none ∧ discount_amount = none ∧
    discount_percentage = none)

instance (a : Option Bool) (b c d : Option ℚ) :
    Decidable (saleAllOrNothing a b c d) := by
  unfold saleAllOrNothing
  infer_instance

/-!
## Claim C2 — batch partition
-/

/-- Claim C2: for every identifier list of size `N` and positive batch size
`B`, `enrichAsins` partitions the list into exactly `⌈N/B⌉ = (N+B-1)/B`
batches, each of size `B` except possibly the last (every batch is at
most `B` long), and concatenating the batches in processing order
reconstructs the input list. -/
theorem enrichAsins_batch_partition (asins : List String) (B : ℕ) (hB : 0 < B) :
    (chunkBatches asins B).length = (asins.length + B - 1) / B ∧
    (∀ c ∈ (chunkBatches asins B).dropLast, c.length = B) ∧
    (∀ c ∈ chunkBatches asins B, c.length ≤ B) ∧
    (chunkBatches asins B).flatten = asins :=
  ⟨chunkBatches_length asins B hB, chunkBatches_dropLast asins B hB,
   fun c hc => chunkBatchesAux_le asins.length asins B c hc,
   chunkBatches_join asins B hB⟩

/-- Witness for C2 at a concrete instance: three identifiers, batch size
two. -/
theorem enrichAsins_batch_partition_witness :
    0 < 2 ∧
    ((chunkBatches ["B0000000A1", "B0000000B2", "B0000000C3"] 2).length = (3 + 2 - 1) / 2 ∧
     (∀ c ∈ (chunkBatches ["B0000000A1", "B0000000B2", "B0000000C3"] 2).dropLast,
       c.length = 2) ∧
     (∀ c ∈ chunkBatches ["B0000000A1", "B0000000B2", "B0000000C3"] 2, c.length ≤ 2) ∧
     (chunkBatches ["B0000000A1", "B0000000B2", "B0000000C3"] 2).flatten
       = ["B0000000A1", "B0000000B2", "B0000000C3"]) :=
  ⟨by decide, enrichAsins_batch_partition ["B0000000A1", "B0000000B2", "B0000000C3"] 2 (by decide)⟩

/-!
## Claim C4 — inter-batch delay
-/

/-- Recogniser for the inter-batch `delay(requestDelayMs)` event. -/
def isInterDelay (ms : ℕ) : DelayEvent → Bool
  | .interBatch m => decide (m = ms)
  | .retry _ => false

theorem runBatches_interCount (cfg : PaConfig) (envB : ℕ → ℕ → BatchResponse) :
    ∀ (batches : List (List String)) (start total : ℕ),
      ((runBatches cfg envB batches start total).2.2.2.countP
        (isInterDelay cfg.requestDelayMs)) = min batches.length (total - start) := by
  intro batches
  induction batches with
  | nil => intro start total; simp [runBatches]
  | cons batch rest ih =>
    intro start total
    rw [runBatches]
    simp only [List.countP_append, List.countP_map]
    have hretry : ∀ l : List ℕ,
        l.countP ((isInterDelay cfg.requestDelayMs) ∘ DelayEvent.retry) = 0 := by
      intro l
      simp [List.countP_eq_zero, isInterDelay]
    rw [hretry, ih (start + 1) total]
    by_cases hlt : start < total
    · simp only [hlt, if_true]
      simp [isInterDelay]
      omega
    · simp only [hlt, if_false]
      simp [List.countP_nil]
      omega

/-- The twelve identifiers of the spec's example scenario C. -/
def asins12 : List String :=
  ["B000000001", "B000000002", "B000000003", "B000000004", "B000000005",
   "B000000006", "B000000007", "B000000008", "B000000009", "B000000010",
   "B000000011", "B000000012"]

/-- Claim C4: on every run of `enrichAsins` over `k` batches the
inter-batch `delay(requestDelayMs)` (default 1100 ms) is performed
exactly `k - 1` times, regardless of the per-batch outcomes; in
particular, enriching 12 identifiers under the default configuration
(batch size 10) issues exactly 2 batches with exactly one inter-batch
delay. -/
theorem enrichAsins_interbatch_delay (asins : List String) (cfg : PaConfig)
    (envB : ℕ → ℕ → BatchResponse) :
    (enrichAsins asins cfg envB).delayTrace.countP
        (isInterDelay cfg.requestDelayMs)
      = (enrichAsins asins cfg envB).batchCount - 1 ∧
    (enrichAsins asins12 DEFAULT_CONFIG envB).batchCount = 2 ∧
    (enrichAsins asins12 DEFAULT_CONFIG envB).delayTrace.countP
        (isInterDelay 1100) = 1 := by
  have key : ∀ (as : List String) (c : PaConfig) (e : ℕ → ℕ → BatchResponse),
      (enrichAsins as c e).delayTrace.countP (isInterDelay c.requestDelayMs)
        = (enrichAsins as c e).batchCount - 1 := by
    intro as c e
    show (runBatches c e (chunkBatches as c.batchSize) 1
        (chunkBatches as c.batchSize).length).2.2.2.countP
        (isInterDelay c.requestDelayMs) = (chunkBatches as c.batchSize).length - 1
    rw [runBatches_interCount]
    omega
  refine ⟨key asins cfg envB, rfl, ?_⟩
  have h2 : (enrichAsins asins12 DEFAULT_CONFIG envB).batchCount = 2 := rfl
  have := key asins12 DEFAULT_CONFIG envB
  rw [h2] at this
  exact this

/-!
## Claim C3 — retry with exponential backoff
-/

/-- Counterexample to C3 as stated: under the default configuration
(3 attempts) a batch failing on every attempt sleeps only *twice*
between attempts — 1000 ms and 2000 ms — so the claimed backoff delay
sequence "1s, 2s, 4s between attempts" does not occur; no 4000 ms delay
is ever performed. -/
theorem retry_backoff_counterexample :
    (enrichBatchWithRetry (fun _ => .failure "timeout") 3 1000).2 = [1000, 2000] ∧
    (enrichBatchWithRetry (fun _ => .failure "timeout") 3 1000).2 ≠ [1000, 2000, 4000] := by
  constructor
  · decide
  · decide

theorem runBatches_all_fail (cfg : PaConfig) (envB : ℕ → ℕ → BatchResponse)
    (e : String)
    (h : ∀ i, (enrichBatchWithRetry (envB i) cfg.retryAttempts cfg.retryDelayMs).1
      = .failure e) :
    ∀ (batches : List (List String)) (start total : ℕ),
      (runBatches cfg envB batches start total).1 = [] ∧
      (runBatches cfg envB batches start total).2.1 = batches.flatten ∧
      (runBatches cfg envB batches start total).2.2.1
        = batches.flatten.map (fun asin =>
            { asin := asin, code := "BATCH_FAILED", message := e }) := by
  intro batches
  induction batches with
  | nil => intro start total; simp [runBatches]
  | cons batch rest ih =>
    intro start total
    rw [runBatches]
    obtain ⟨ih1, ih2, ih3⟩ := ih (start + 1) total
    simp [processBatchResponse, h start, ih1, ih2, ih3]

/-- Claim C3 (amended): for a batch whose request fails on every attempt,
`enrichBatchWithRetry` under the default configuration issues the request
exactly 3 times with exponential-backoff delays of 1 s and 2 s between
consecutive attempts (the delay after failed attempt `k` is
`1000·2^(k-1)` ms; with 3 attempts only two delays occur) and, after
exhaustion, `enrichAsins` marks every identifier of the batch as failed
with the synthetic code `BATCH_FAILED`, distinct from an item-level
rejection code. -/
theorem retry_backoff_and_batch_failed (e : String)
    (envB : ℕ → ℕ → BatchResponse) (hfail : ∀ i k, envB i k = .failure e) :
    (∀ i, enrichBatchWithRetry (envB i) DEFAULT_CONFIG.retryAttempts
        DEFAULT_CONFIG.retryDelayMs = (.failure e, [1000, 2000])) ∧
    (∀ i, (enrichBatchWithRetry (envB i) DEFAULT_CONFIG.retryAttempts
        DEFAULT_CONFIG.retryDelayMs).2.length + 1 = DEFAULT_CONFIG.retryAttempts) ∧
    ∀ asins : List String,
      (enrichAsins asins DEFAULT_CONFIG envB).failed = asins ∧
      (enrichAsins asins DEFAULT_CONFIG envB).errors
        = if asins = [] then none
          else some (asins.map (fun asin =>
            { asin := asin, code := "BATCH_FAILED", message := e })) := by
  have hone : ∀ i, enrichBatchWithRetry (envB i) DEFAULT_CONFIG.retryAttempts
      DEFAULT_CONFIG.retryDelayMs = (.failure e, [1000, 2000]) := by
    intro i
    show enrichBatchRetryAux (envB i) 1000 1 2 = _
    simp [enrichBatchRetryAux, hfail]
  refine ⟨hone, fun i => by rw [hone i]; rfl, ?_⟩
  intro asins
  have hfb : ∀ i, (enrichBatchWithRetry (envB i) DEFAULT_CONFIG.retryAttempts
      DEFAULT_CONFIG.retryDelayMs).1 = .failure e := fun i => by rw [hone i]
  obtain ⟨_, h2, h3⟩ := runBatches_all_fail DEFAULT_CONFIG envB e hfb
    (chunkBatches asins DEFAULT_CONFIG.batchSize) 1
    (chunkBatches asins DEFAULT_CONFIG.batchSize).length
  have hjoin : (chunkBatches asins DEFAULT_CONFIG.batchSize).flatten = asins :=
    chunkBatches_join asins DEFAULT_CONFIG.batchSize (by decide)
  constructor
  · show (runBatches DEFAULT_CONFIG envB _ 1 _).2.1 = asins
    rw [h2, hjoin]
  · show (if (0 : ℕ) < (runBatches DEFAULT_CONFIG envB _ 1 _).2.2.1.length
        then some (runBatches DEFAULT_CONFIG envB _ 1 _).2.2.1 else none) = _
    rw [h3, hjoin]
    cases asins with
    | nil => simp
    | cons a rest => simp

/-- Witness for C3 (amended) at a concrete instance: an environment that
times out on every attempt. -/
theorem retry_backoff_witness :
    enrichBatchWithRetry (fun _ => BatchResponse.failure "timeout")
        DEFAULT_CONFIG.retryAttempts DEFAULT_CONFIG.retryDelayMs
      = (.failure "timeout", [1000, 2000]) ∧
    (enrichAsins ["B0000000A1", "B0000000B2"] DEFAULT_CONFIG
        (fun _ _ => BatchResponse.failure "timeout")).failed
      = ["B0000000A1", "B0000000B2"] :=
  ⟨(retry_backoff_and_batch_failed "timeout" (fun _ _ => .failure "timeout")
      (fun _ _ => rfl)).1 1,
   ((retry_backoff_and_batch_failed "timeout" (fun _ _ => .failure "timeout")
      (fun _ _ => rfl)).2.2 ["B0000000A1", "B0000000B2"]).1⟩

/-!
## Claim C1 — per-identifier accounting
-/

/-- The response `enrichAsins` ends up processing for batch number `i`
(1-based): the outcome of `enrichBatchWithRetry` for that batch. -/
def finalBatchResponse (cfg : PaConfig) (envB : ℕ → ℕ → BatchResponse)
    (i : ℕ) : BatchResponse :=
  (enrichBatchWithRetry (envB i) cfg.retryAttempts cfg.retryDelayMs).1

theorem extractProductData_asin (item : PaItem) (tag : String) :
    (extractProductData item tag).asin = item.ASIN := rfl

theorem perm_append_middle (A B C D : List String) :
    ((A ++ B) ++ (C ++ D)).Perm ((A ++ C) ++ (B ++ D)) := by
  have h1 : ((A ++ B) ++ (C ++ D)) = A ++ (B ++ C ++ D) := by
    simp [List.append_assoc]
  have h2 : ((A ++ C) ++ (B ++ D)) = A ++ (C ++ B ++ D) := by
    simp [List.append_assoc]
  rw [h1, h2]
  exact List.Perm.append_left A
    (List.Perm.append_right D (List.perm_append_comm))

theorem runBatches_perm (cfg : PaConfig) (envB : ℕ → ℕ → BatchResponse) :
    ∀ (batches : List (List String)) (start total : ℕ),
      (∀ j batch, batches[j]? = some batch →
        ∀ d, finalBatchResponse cfg envB (start + j) = .success d →
          ((d.items.map (·.ASIN)) ++ (d.errors.map (·.ASIN))).Perm batch) →
      (((runBatches cfg envB batches start total).1.map (·.asin))
        ++ (runBatches cfg envB batches start total).2.1).Perm batches.flatten := by
  intro batches
  induction batches with
  | nil => intro start total _; simp [runBatches]
  | cons batch rest ih =>
    intro start total h
    have htail := ih (start + 1) total (fun j b hj d hd => by
      have := h (j + 1) b (by simpa using hj) d
      rw [show start + (j + 1) = start + 1 + j by omega] at this
      exact this hd)
    rw [runBatches]
    rcases hresp : (enrichBatchWithRetry (envB start) cfg.retryAttempts
        cfg.retryDelayMs).1 with d | err
    · -- batch succeeded: coverage gives the per-batch permutation
      have hhead := h 0 batch (by simp) d (by
        show (enrichBatchWithRetry (envB (start + 0)) cfg.retryAttempts
          cfg.retryDelayMs).1 = .success d
        simpa using hresp)
      simp only [processBatchResponse, hresp, List.map_append, List.map_map,
        List.flatten_cons]
      have hdef : (d.items.map (fun item =>
          (extractProductData item cfg.associateTag).asin)) = d.items.map (·.ASIN) := by
        simp [extractProductData_asin]
      refine List.Perm.trans (perm_append_middle _ _ _ _) ?_
      refine List.Perm.append ?_ htail
      show ((d.items.map ((fun p => p.asin) ∘
          (fun item => extractProductData item cfg.associateTag)))
        ++ d.errors.map (·.ASIN)).Perm batch
      rw [show ((fun p => p.asin) ∘
          (fun item => extractProductData item cfg.associateTag))
        = fun item => (extractProductData item cfg.associateTag).asin from rfl]
      rw [hdef]
      exact hhead
    · -- batch failed: every identifier of the batch lands in `failed`
      simp only [processBatchResponse, hresp, List.map_append, List.nil_append,
        List.flatten_cons]
      have := perm_append_middle []
        ((runBatches cfg envB rest (start + 1) total).1.map (·.asin)) batch
        ((runBatches cfg envB rest (start + 1) total).2.1)
      simp only [List.nil_append] at this
      exact this.trans (List.Perm.append (List.Perm.refl batch) htail)

/-- Claim C1 (amended): *provided* every successful batch response accounts
for exactly the identifiers of its batch (each appearing either among the
returned items or in the per-item error list), every requested identifier
appears in exactly one of the enriched-products list and the failed list
(jointly, a permutation of the request), and
`enrichedCount + failedCount = totalAsins`.  Without that proviso the
guarantee fails: identifiers that a successful response simply omits
appear in *neither* list and no "no response" failure is recorded — the
code contains no such handling (see the counterexample). -/
theorem enrichAsins_accounting (asins : List String) (cfg : PaConfig)
    (envB : ℕ → ℕ → BatchResponse)
    (hcover : ∀ i batch, (chunkBatches asins cfg.batchSize)[i]? = some batch →
      ∀ d, finalBatchResponse cfg envB (1 + i) = .success d →
        ((d.items.map (·.ASIN)) ++ (d.errors.map (·.ASIN))).Perm batch)
    (hB : 0 < cfg.batchSize) :
    (((enrichAsins asins cfg envB).products.map (·.asin))
      ++ (enrichAsins asins cfg envB).failed).Perm asins ∧
    (enrichAsins asins cfg envB).enrichedCount
      + (enrichAsins asins cfg envB).failedCount
      = (enrichAsins asins cfg envB).totalAsins := by
  have hperm := runBatches_perm cfg envB (chunkBatches asins cfg.batchSize) 1
    (chunkBatches asins cfg.batchSize).length hcover
  rw [chunkBatches_join asins cfg.batchSize hB] at hperm
  constructor
  · exact hperm
  · have hlen := hperm.length_eq
    simp only [List.length_append, List.length_map] at hlen
    show (enrichAsins asins cfg envB).products.length
      + (enrichAsins asins cfg envB).failed.length = asins.length
    exact hlen

/-- The environment of the C1 counterexample: the only batch succeeds
with an empty item list and an empty error list, mentioning none of the
requested identifiers. -/
def envEmptyResponse : ℕ → ℕ → BatchResponse :=
  fun _ _ => .success { items := [], errors := [] }

/-- Counterexample to C1 as stated: requesting one identifier against a
successful batch response that omits it leaves the identifier in
*neither* the enriched list nor the failed list, records no error at all
(in particular no generic "no response" error), and the metadata violates
`enrichedCount + failedCount = totalAsins` (`0 + 0 ≠ 1`). -/
theorem enrichAsins_accounting_counterexample :
    (enrichAsins ["B0000000A1"] DEFAULT_CONFIG envEmptyResponse).totalAsins = 1 ∧
    (enrichAsins ["B0000000A1"] DEFAULT_CONFIG envEmptyResponse).products = [] ∧
    (enrichAsins ["B0000000A1"] DEFAULT_CONFIG envEmptyResponse).failed = [] ∧
    (enrichAsins ["B0000000A1"] DEFAULT_CONFIG envEmptyResponse).errors = none ∧
    (enrichAsins ["B0000000A1"] DEFAULT_CONFIG envEmptyResponse).enrichedCount
      + (enrichAsins ["B0000000A1"] DEFAULT_CONFIG envEmptyResponse).failedCount
      ≠ (enrichAsins ["B0000000A1"] DEFAULT_CONFIG envEmptyResponse).totalAsins :=
  ⟨rfl, rfl, rfl, rfl, by decide⟩

/-- The PA-API item of the C1 witness response. -/
def itemWitnessA : PaItem :=
  { ASIN := "B0000000A1", titleDisplayValue := some "Widget"
    price := none, savingBasis := none, imageUrl := none
    availabilityType := none, DetailPageURL := none }

/-- The per-item rejection of the C1 witness response. -/
def errWitnessB : BatchItemError :=
  { ASIN := "B0000000B2", Code := some "InvalidParameterValue"
    Message := some "not accessible" }

/-- The environment of the C1 witness: one batch, one enriched item plus
one item-level rejection, covering the two requested identifiers. -/
def envCovered : ℕ → ℕ → BatchResponse :=
  fun _ _ => .success { items := [itemWitnessA], errors := [errWitnessB] }

/-- Witness for C1 (amended) at a concrete covered run. -/
theorem enrichAsins_accounting_witness :
    0 < DEFAULT_CONFIG.batchSize ∧
    (((enrichAsins ["B0000000A1", "B0000000B2"] DEFAULT_CONFIG envCovered).products.map
        (·.asin))
      ++ (enrichAsins ["B0000000A1", "B0000000B2"] DEFAULT_CONFIG envCovered).failed).Perm
      ["B0000000A1", "B0000000B2"] ∧
    (enrichAsins ["B0000000A1", "B0000000B2"] DEFAULT_CONFIG envCovered).enrichedCount
      + (enrichAsins ["B0000000A1", "B0000000B2"] DEFAULT_CONFIG envCovered).failedCount
      = (enrichAsins ["B0000000A1", "B0000000B2"] DEFAULT_CONFIG envCovered).totalAsins := by
  refine ⟨by decide, ?_⟩
  refine enrichAsins_accounting ["B0000000A1", "B0000000B2"] DEFAULT_CONFIG envCovered
    ?_ (by decide)
  intro i batch hbatch d hd
  cases i with
  | zero =>
    have hb : batch = ["B0000000A1", "B0000000B2"] := by
      have : (chunkBatches ["B0000000A1", "B0000000B2"] DEFAULT_CONFIG.batchSize)[0]?
          = some ["B0000000A1", "B0000000B2"] := by decide
      rw [this] at hbatch
      exact (Option.some.injEq _ _ ▸ hbatch).symm
    have hdv : d = { items := [itemWitnessA], errors := [errWitnessB] } := by
      have hfin : finalBatchResponse DEFAULT_CONFIG envCovered 1
          = .success { items := [itemWitnessA], errors := [errWitnessB] } := rfl
      rw [hfin] at hd
      exact (BatchResponse.success.injEq _ _ ▸ hd).symm
    subst hb; subst hdv
    decide
  | succ n =>
    have hlen : (chunkBatches ["B0000000A1", "B0000000B2"] DEFAULT_CONFIG.batchSize).length
        = 1 := by decide
    rw [List.getElem?_eq_none (by omega)] at hbatch
    cases hbatch

/-!
## Claim C5 — sale-field derivation
-/

/-- The PA-API item of the C5 counterexample: the response supplies a
list price (30) strictly greater than the current price, but the current
price is `0`, which is falsy in JS. -/
def itemZeroPrice : PaItem :=
  { ASIN := "B0000000Z0", titleDisplayValue := none
    price := some { Amount := 0, Currency := "USD" }
    savingBasis := some { Amount := 30 }
    imageUrl := none, availabilityType := none, DetailPageURL := none }

/-- Counterexample to C5's "if and only if": this item supplies a
list/original price (30) strictly greater than the current price (0),
yet `extractProductData` attaches no sale fields, because the source
additionally requires the price (and the saving-basis amount) to be
truthy, i.e. non-zero. -/
theorem extract_sale_iff_counterexample :
    specSaleCondition itemZeroPrice = true ∧
    (extractProductData itemZeroPrice "tag-20").is_on_sale = none ∧
    (extractProductData itemZeroPrice "tag-20").original_price = none ∧
    (extractProductData itemZeroPrice "tag-20").discount_amount = none ∧
    (extractProductData itemZeroPrice "tag-20").discount_percentage = none := by
  refine ⟨?_, ?_, ?_, ?_, ?_⟩ <;>
    norm_num [specSaleCondition, extractProductData, itemZeroPrice]

/-- The PA-API item of the spec's example scenario D: price 29.99, list
price 49.99. -/
def itemScenarioD : PaItem :=
  { ASIN := "B0000000D4", titleDisplayValue := none
    price := some { Amount := 2999/100, Currency := "USD" }
    savingBasis := some { Amount := 4999/100 }
    imageUrl := none, availabilityType := none, DetailPageURL := none }

theorem extract_sale_values (item : PaItem) (tag : String)
    (sb : PaSavingBasis) (p : PaPrice)
    (hsb : item.savingBasis = some sb) (hp : item.price = some p)
    (h1 : sb.Amount ≠ 0) (h2 : p.Amount ≠ 0) (hlt : p.Amount < sb.Amount) :
    (extractProductData item tag).is_on_sale = some true ∧
    (extractProductData item tag).original_price = some sb.Amount ∧
    (extractProductData item tag).discount_amount = some (sb.Amount - p.Amount) ∧
    (extractProductData item tag).discount_percentage
      = some (jsRound ((sb.Amount - p.Amount) / sb.Amount * 100)) := by
  have hand : sb.Amount ≠ 0 ∧ p.Amount ≠ 0 := ⟨h1, h2⟩
  have hpos : sb.Amount - p.Amount > 0 := by linarith
  simp only [extractProductData, hsb, hp, Option.map_some']
  rw [if_pos hand, if_pos hpos]
  simp

theorem extract_no_sale (item : PaItem) (tag : String)
    (hnot : ¬ codeSaleCondition item) :
    (extractProductData item tag).is_on_sale = none ∧
    (extractProductData item tag).original_price = none ∧
    (extractProductData item tag).discount_amount = none ∧
    (extractProductData item tag).discount_percentage = none := by
  rcases hsb : item.savingBasis with _ | sb
  · simp only [extractProductData, hsb]
    refine ⟨?_, ?_, ?_, ?_⟩ <;> trivial
  · rcases hp : item.price with _ | p
    · simp only [extractProductData, hsb, hp, Option.map_none']
      refine ⟨?_, ?_, ?_, ?_⟩ <;> trivial
    · simp only [extractProductData, hsb, hp, Option.map_some']
      by_cases hand : sb.Amount ≠ 0 ∧ p.Amount ≠ 0
      · have hnpos : ¬ (sb.Amount - p.Amount > 0) := by
          intro hpos
          exact hnot ⟨sb, p, hsb, hp, hand.1, hand.2, by linarith⟩
        rw [if_pos hand, if_neg hnpos]
        refine ⟨?_, ?_, ?_, ?_⟩ <;> trivial
      · rw [if_neg hand]
        refine ⟨?_, ?_, ?_, ?_⟩ <;> trivial

/-- Claim C5 (amended): `extractProductData` attaches the sale fields iff
the response supplies a saving basis with a truthy (non-zero) amount
*and* a truthy (present and non-zero) current price with the saving
basis strictly greater than it; the attached values are
`originalPrice = listPrice`, `discountAmount = listPrice − price`,
`discountPercentage = round(discountAmount/listPrice·100)`, and
`isOnSale = true`; otherwise no sale field is attached at all.  With
price 29.99 and list price 49.99 this yields `isOnSale = true`,
`discountAmount = 20.00` and `discountPercentage = 40` (scenario D, in
exact arithmetic). -/
theorem extract_sale_fields (item : PaItem) (tag : String) :
    ((extractProductData item tag).is_on_sale = some true ↔ codeSaleCondition item) ∧
    (¬ codeSaleCondition item →
      (extractProductData item tag).is_on_sale = none ∧
      (extractProductData item tag).original_price = none ∧
      (extractProductData item tag).discount_amount = none ∧
      (extractProductData item tag).discount_percentage = none) ∧
    (∀ sb p, item.savingBasis = some sb → item.price = some p →
      sb.Amount ≠ 0 → p.Amount ≠ 0 → p.Amount < sb.Amount →
      (extractProductData item tag).is_on_sale = some true ∧
      (extractProductData item tag).original_price = some sb.Amount ∧
      (extractProductData item tag).discount_amount = some (sb.Amount - p.Amount) ∧
      (extractProductData item tag).discount_percentage
        = some (jsRound ((sb.Amount - p.Amount) / sb.Amount * 100))) ∧
    ((extractProductData itemScenarioD tag).is_on_sale = some true ∧
      (extractProductData itemScenarioD tag).original_price = some (4999/100) ∧
      (extractProductData itemScenarioD tag).discount_amount = some 20 ∧
      (extractProductData itemScenarioD tag).discount_percentage = some 40) := by
  refine ⟨?_, fun hnot => extract_no_sale item tag hnot,
    fun sb p hsb hp h1 h2 hlt => extract_sale_values item tag sb p hsb hp h1 h2 hlt,
    ?_⟩
  · constructor
    · intro hsale
      by_contra hnot
      rw [(extract_no_sale item tag hnot).1] at hsale
      cases hsale
    · rintro ⟨sb, p, hsb, hp, h1, h2, hlt⟩
      exact (extract_sale_values item tag sb p hsb hp h1 h2 hlt).1
  · have h := extract_sale_values itemScenarioD tag { Amount := 4999/100 }
      { Amount := 2999/100, Currency := "USD" } rfl rfl
      (by norm_num) (by norm_num) (by norm_num)
    refine ⟨h.1, h.2.1, ?_, ?_⟩
    · rw [h.2.2.1]
      norm_num
    · rw [h.2.2.2]
      norm_num [jsRound]

/-- Witness for C5 (amended): a concrete on-sale item (price 50, list
price 100) for the attached-values conjunct. -/
theorem extract_sale_fields_witness :
    ((50 : ℚ) ≠ 0 ∧ (100 : ℚ) ≠ 0 ∧ (50 : ℚ) < 100) ∧
    ((extractProductData
        { ASIN := "B0000000W5", titleDisplayValue := none
          price := some { Amount := 50, Currency := "USD" }
          savingBasis := some { Amount := 100 }
          imageUrl := none, availabilityType := none, DetailPageURL := none }
        "tag-20").is_on_sale = some true ∧
      (extractProductData
        { ASIN := "B0000000W5", titleDisplayValue := none
          price := some { Amount := 50, Currency := "USD" }
          savingBasis := some { Amount := 100 }
          imageUrl := none, availabilityType := none, DetailPageURL := none }
        "tag-20").original_price = some 100 ∧
      (extractProductData
        { ASIN := "B0000000W5", titleDisplayValue := none
          price := some { Amount := 50, Currency := "USD" }
          savingBasis := some { Amount := 100 }
          imageUrl := none, availabilityType := none, DetailPageURL := none }
        "tag-20").discount_amount = some (100 - 50) ∧
      (extractProductData
        { ASIN := "B0000000W5", titleDisplayValue := none
          price := some { Amount := 50, Currency := "USD" }
          savingBasis := some { Amount := 100 }
          imageUrl := none, availabilityType := none, DetailPageURL := none }
        "tag-20").discount_percentage = some (jsRound ((100 - 50) / 100 * 100))) :=
  ⟨⟨by decide, by decide, by decide⟩,
   (extract_sale_fields _ "tag-20").2.2.1 { Amount := 100 }
     { Amount := 50, Currency := "USD" } rfl rfl (by decide) (by decide) (by decide)⟩

/-!
## Claim C6 — sale fields all-or-nothing
-/

theorem saleAllOrNothing_map (o : Option (ℚ × ℚ × ℚ)) :
    saleAllOrNothing (o.map fun _ => true) (o.map (·.1)) (o.map (·.2.1))
      (o.map (·.2.2)) := by
  cases o with
  | none => right; exact ⟨rfl, rfl, rfl, rfl⟩
  | some v => left; exact ⟨rfl, rfl, rfl, rfl⟩

/-- Claim C6 (amended): every product produced by `extractProductData`
carries the four sale fields all-or-nothing, and `formatProduct`
preserves the property for every input whose sale fields are coherent
(whenever `is_on_sale` is `true` the other three are present) — which
holds for every product the pipeline feeds it.  On an incoherent input,
however, `formatProduct` itself can emit a proper subset (see the
counterexample). -/
theorem sale_fields_all_or_nothing :
    (∀ (item : PaItem) (tag : String),
      saleAllOrNothing (extractProductData item tag).is_on_sale
        (extractProductData item tag).original_price
        (extractProductData item tag).discount_amount
        (extractProductData item tag).discount_percentage) ∧
    (∀ (product : JsProduct) (tag : String),
      (product.is_on_sale = some true →
        product.original_price.isSome ∧ product.discount_amount.isSome ∧
          product.discount_percentage.isSome) →
      saleAllOrNothing (formatProduct product tag).is_on_sale
        (formatProduct product tag).original_price
        (formatProduct product tag).discount_amount
        (formatProduct product tag).discount_percentage) := by
  constructor
  · intro item tag
    exact saleAllOrNothing_map _
  · intro product tag hcoh
    rcases hob : product.is_on_sale with _ | b
    · right
      simp [formatProduct, jsTruthyBool, hob]
    · cases b with
      | false =>
        right
        simp [formatProduct, jsTruthyBool, hob]
      | true =>
        left
        obtain ⟨h1, h2, h3⟩ := hcoh hob
        simp [formatProduct, jsTruthyBool, hob, h1, h2, h3]

/-- The enriched-product input of the C6 witness: a coherent on-sale
product. -/
def productFullSale : JsProduct :=
  { asin := "B0000000W6", is_on_sale := some true
    original_price := some 100, discount_amount := some 50
    discount_percentage := some 50 }

/-- Witness for C6 (amended): `formatProduct` on a coherent on-sale
product keeps all four sale fields together. -/
theorem sale_fields_all_or_nothing_witness :
    saleAllOrNothing (formatProduct productFullSale "tag-20").is_on_sale
      (formatProduct productFullSale "tag-20").original_price
      (formatProduct productFullSale "tag-20").discount_amount
      (formatProduct productFullSale "tag-20").discount_percentage :=
  sale_fields_all_or_nothing.2 productFullSale "tag-20"
    (fun _ => ⟨rfl, rfl, rfl⟩)

/-- The incoherent input of the C6 counterexample: `is_on_sale: true`
with no other sale field. -/
def productOnlyFlag : JsProduct :=
  { asin := "B0000000X6", is_on_sale := some true }

/-- Counterexample to C6 as stated: `formatProduct` applied to an input
carrying `is_on_sale: true` but none of the other three sale fields
outputs `is_on_sale` alone — a proper non-empty subset of the four sale
fields. -/
theorem sale_fields_subset_counterexample :
    (formatProduct productOnlyFlag "tag-20").is_on_sale = some true ∧
    (formatProduct productOnlyFlag "tag-20").original_price = none ∧
    (formatProduct productOnlyFlag "tag-20").discount_amount = none ∧
    (formatProduct productOnlyFlag "tag-20").discount_percentage = none ∧
    ¬ saleAllOrNothing (formatProduct productOnlyFlag "tag-20").is_on_sale
        (formatProduct productOnlyFlag "tag-20").original_price
        (formatProduct productOnlyFlag "tag-20").discount_amount
        (formatProduct productOnlyFlag "tag-20").discount_percentage := by
  refine ⟨rfl, rfl, rfl, rfl, ?_⟩
  intro h
  rcases h with ⟨_, h2, _, _⟩ | ⟨h1, _, _, _⟩
  · exact absurd h2 (by decide)
  · cases h1

/-!
## Claim C7 — optional clicks column
-/

theorem mapRowToProduct_no_clicks (row : String → Option String)
    (columnMap : ColumnMap) (hclicks : columnMap.clicks = none)
    (p : ProductRow) (hp : mapRowToProduct row columnMap = some p) :
    p.clicks = 0 ∧ (columnMap.conversionRate = none → p.conversion_rate = none) := by
  unfold mapRowToProduct at hp
  rcases hcell : (columnMap.asin.bind row).map jsTrim with _ | asin
  · rw [hcell] at hp; cases hp
  · rw [hcell] at hp
    rw [hclicks] at hp
    simp only [Option.none_bind] at hp
    by_cases hv : isValidASIN asin
    · rw [if_neg (fun hC => hC hv)] at hp
      injection hp with hp
      subst hp
      refine ⟨rfl, fun hcr => ?_⟩
      simp [hcr, parseNumber]
    · rw [if_pos hv] at hp
      cases hp

theorem parseRowsAux_mem (columnMap : ColumnMap) (skipInvalidRows : Bool) :
    ∀ (rows : List (String → Option String)) (i : ℕ) (p : ProductRow),
      p ∈ (parseRowsAux columnMap skipInvalidRows rows i).1 →
      ∃ row ∈ rows, mapRowToProduct row columnMap = some p := by
  intro rows
  induction rows with
  | nil => intro i p hp; simp [parseRowsAux] at hp
  | cons row rest ih =>
    intro i p hp
    rw [parseRowsAux] at hp
    rcases hm : mapRowToProduct row columnMap with _ | q
    · rw [hm] at hp
      obtain ⟨r, hr, hmr⟩ := ih (i + 1) p hp
      exact ⟨r, List.mem_cons_of_mem _ hr, hmr⟩
    · rw [hm] at hp
      rcases List.mem_cons.mp hp with rfl | hp'
      · exact ⟨row, List.mem_cons_self _ _, hm⟩
      · obtain ⟨r, hr, hmr⟩ := ih (i + 1) p hp'
        exact ⟨r, List.mem_cons_of_mem _ hr, hmr⟩

/-- Claim C7 (amended): when the headers resolve the four required roles
but not `clicks`, `parseCSV` and the XLSX branch of `parseFile` succeed
and emit the clicks warning, and every parsed product degrades to
`clicks = 0` (with `conversion_rate` unavailable unless a conversion
column exists) — but `parseCSVString`, which still lists `clicks` among
its required fields, *fails* (it throws instead of warning). -/
theorem clicks_optional (headers : List String)
    (rows : List (String → Option String)) (skipInvalidRows : Bool)
    (hreq : missingRequiredFields (buildColumnMap headers) = [])
    (hclicks : (buildColumnMap headers).clicks = none) :
    (parseCSV headers rows skipInvalidRows).success = true ∧
    (parseCSV headers rows skipInvalidRows).clicksWarning = true ∧
    parseFileXlsx headers rows skipInvalidRows
      = .ok (parseCSV headers rows skipInvalidRows) ∧
    (parseCSVString headers rows).isOk = false ∧
    (∀ p ∈ (parseCSV headers rows skipInvalidRows).products, p.clicks = 0) ∧
    ((buildColumnMap headers).conversionRate = none →
      ∀ p ∈ (parseCSV headers rows skipInvalidRows).products,
        p.conversion_rate = none) := by
  have hlen : ¬ (missingRequiredFields (buildColumnMap headers)).length > 0 := by
    rw [hreq]; simp
  have hcsv : parseCSV headers rows skipInvalidRows
      = buildParseSuccess rows.length
        (parseRowsAux (buildColumnMap headers) skipInvalidRows rows 0)
        (decide ((buildColumnMap headers).clicks = none)) := by
    unfold parseCSV
    rw [if_neg hlen]
  have hprods : (parseCSV headers rows skipInvalidRows).products
      = (parseRowsAux (buildColumnMap headers) skipInvalidRows rows 0).1 := by
    rw [hcsv]; rfl
  refine ⟨by rw [hcsv]; rfl, ?_, ?_, ?_, ?_, ?_⟩
  · rw [hcsv]
    show decide ((buildColumnMap headers).clicks = none) = true
    rw [hclicks]
    rfl
  · unfold parseFileXlsx
    rw [if_neg hlen, hcsv]
  · unfold parseCSVString
    have : (missingRequiredFieldsWithClicks (buildColumnMap headers)).length > 0 := by
      unfold missingRequiredFieldsWithClicks
      rw [hreq, hclicks]
      simp
    rw [if_pos this]
    rfl
  · intro p hp
    rw [hprods] at hp
    obtain ⟨row, _, hmr⟩ := parseRowsAux_mem _ _ rows 0 p hp
    exact (mapRowToProduct_no_clicks row _ hclicks p hmr).1
  · intro hcr p hp
    rw [hprods] at hp
    obtain ⟨row, _, hmr⟩ := parseRowsAux_mem _ _ rows 0 p hp
    exact (mapRowToProduct_no_clicks row _ hclicks p hmr).2 hcr

/-- Counterexample to C7 as stated: with headers resolving exactly the
four required roles and no clicks column, `parseCSV` succeeds with the
warning, but `parseCSVString` throws (`Except.error`) instead of
succeeding — not every public parsing entry point degrades gracefully. -/
theorem clicks_optional_counterexample :
    (parseCSV ["ASIN", "Ordered Items", "Revenue", "Earnings"] [] true).success
      = true ∧
    (parseCSV ["ASIN", "Ordered Items", "Revenue", "Earnings"] [] true).clicksWarning
      = true ∧
    (parseCSVString ["ASIN", "Ordered Items", "Revenue", "Earnings"] []).isOk
      = false := by
  refine ⟨?_, ?_, ?_⟩ <;> decide

/-- Witness for C7 (amended) at the concrete header set of the
counterexample. -/
theorem clicks_optional_witness :
    missingRequiredFields
        (buildColumnMap ["ASIN", "Ordered Items", "Revenue", "Earnings"]) = [] ∧
    (buildColumnMap ["ASIN", "Ordered Items", "Revenue", "Earnings"]).clicks = none ∧
    ((parseCSV ["ASIN", "Ordered Items", "Revenue", "Earnings"] [] true).success = true ∧
     (parseCSVString ["ASIN", "Ordered Items", "Revenue", "Earnings"] []).isOk = false) :=
  ⟨by decide, by decide,
   (clicks_optional ["ASIN", "Ordered Items", "Revenue", "Earnings"] [] true
      (by decide) (by decide)).1,
   (clicks_optional ["ASIN", "Ordered Items", "Revenue", "Earnings"] [] true
      (by decide) (by decide)).2.2.2.1⟩

/-!
## Claim C8 — case sensitivity of identifiers
-/

/-- The 26 ASCII upper/lower letter pairs. -/
def casePairs : List (Char × Char) :=
  [('A', 'a'), ('B', 'b'), ('C', 'c'), ('D', 'd'), ('E', 'e'), ('F', 'f'),
   ('G', 'g'), ('H', 'h'), ('I', 'i'), ('J', 'j'), ('K', 'k'), ('L', 'l'),
   ('M', 'm'), ('N', 'n'), ('O', 'o'), ('P', 'p'), ('Q', 'q'), ('R', 'r'),
   ('S', 's'), ('T', 't'), ('U', 'u'), ('V', 'v'), ('W', 'w'), ('X', 'x'),
   ('Y', 'y'), ('Z', 'z')]

/-- Two characters differ at most in letter case: they are equal, or an
upper/lower pair of the same ASCII letter. -/
def charCaseVariant (c d : Char) : Prop :=
  c = d ∨ (c, d) ∈ casePairs ∨ (d, c) ∈ casePairs

instance (c d : Char) : Decidable (charCaseVariant c d) := by
  unfold charCaseVariant
  infer_instance

/-- Two strings differ at most in letter case, character for
character. -/
def sameUpToCase (s t : String) : Prop :=
  List.Forall₂ charCaseVariant s.data t.data

instance sameUpToCaseDecAux :
    ∀ (l₁ l₂ : List Char), Decidable (List.Forall₂ charCaseVariant l₁ l₂)
  | [], [] => .isTrue List.Forall₂.nil
  | [], _ :: _ => .isFalse (fun h => by cases h)
  | _ :: _, [] => .isFalse (fun h => by cases h)
  | a :: l₁, b :: l₂ =>
    @decidable_of_iff _ _ List.forall₂_cons.symm
      (@instDecidableAnd _ _ _ (sameUpToCaseDecAux l₁ l₂))

instance (s t : String) : Decidable (sameUpToCase s t) :=
  sameUpToCaseDecAux s.data t.data

theorem charCaseVariant_head (c d : Char) (h : charCaseVariant c d) :
    (c = 'B' || c = 'b' || c.isDigit) = (d = 'B' || d = 'b' || d.isDigit) := by
  rcases h with rfl | h | h
  · rfl
  · fin_cases h <;> rfl
  · fin_cases h <;> rfl

theorem charCaseVariant_tail (c d : Char) (h : charCaseVariant c d) :
    (c.isAlpha || c.isDigit) = (d.isAlpha || d.isDigit) := by
  rcases h with rfl | h | h
  · rfl
  · fin_cases h <;> rfl
  · fin_cases h <;> rfl

theorem all_alnum_case (l₁ l₂ : List Char)
    (h : List.Forall₂ charCaseVariant l₁ l₂) :
    l₁.all (fun d => d.isAlpha || d.isDigit) = l₂.all (fun d => d.isAlpha || d.isDigit) := by
  induction h with
  | nil => rfl
  | cons hcd _ ih =>
    simp only [List.all_cons, ih, charCaseVariant_tail _ _ hcd]

theorem asinPattern_case (l₁ l₂ : List Char)
    (h : List.Forall₂ charCaseVariant l₁ l₂) :
    asinPattern l₁ = asinPattern l₂ := by
  cases h with
  | nil => rfl
  | cons hcd htail =>
    simp only [asinPattern]
    rw [charCaseVariant_head _ _ hcd, all_alnum_case _ _ htail]

theorem isValidASIN_case (s t : String)
    (h : sameUpToCase (jsTrim s) (jsTrim t)) :
    isValidASIN s = isValidASIN t := by
  simp only [isValidASIN]
  have hlen : (jsTrim s).data.length = (jsTrim t).data.length :=
    List.Forall₂.length_eq h
  have hlen' : (jsTrim s).length = (jsTrim t).length := hlen
  rw [hlen', asinPattern_case _ _ h]

theorem initialAgg_asin (product : ProductRow) :
    (initialAgg product).asin = product.asin := rfl

theorem mergeTags_asin (existing : AggProduct) (productTag : Option String) :
    (mergeTags existing productTag).asin = existing.asin := by
  rcases productTag with _ | t
  · rfl
  · simp only [mergeTags]
    by_cases hcond : t ≠ "" ∧ some t ≠ existing.tag
    · rw [if_pos hcond]
      rcases htags : existing.tags with _ | ts
      · simp only [htags]
        split_ifs <;> rfl
      · simp only [htags]
        split_ifs <;> rfl
    · rw [if_neg hcond]

theorem mergeProduct_asin (existing : AggProduct) (product : ProductRow) :
    (mergeProduct existing product).asin = existing.asin := by
  rcases hship : product.items_shipped with _ | v <;>
    simp [mergeProduct, hship, mergeTags_asin]

theorem computeDerived_asin (product : AggProduct) :
    (computeDerived product).asin = product.asin := rfl

theorem upsertByAsin_keys (m : List AggProduct) (product : ProductRow) :
    (upsertByAsin m product).map (·.asin) =
      if product.asin ∈ m.map (·.asin) then m.map (·.asin)
      else m.map (·.asin) ++ [product.asin] := by
  induction m with
  | nil => simp [upsertByAsin, initialAgg_asin]
  | cons e rest ih =>
    by_cases he : e.asin = product.asin
    · rw [upsertByAsin, if_pos he]
      simp [mergeProduct_asin, he]
    · rw [upsertByAsin, if_neg he]
      simp only [List.map_cons, ih, List.mem_cons]
      by_cases hmem : product.asin ∈ rest.map (·.asin)
      · rw [if_pos hmem, if_pos (Or.inr hmem)]
      · rw [if_neg hmem, if_neg ?_]
        · simp
        · rintro (heq | hmem')
          · exact he heq.symm
          · exact hmem hmem'

theorem foldl_upsert_keys (products : List ProductRow) :
    ∀ m : List AggProduct,
      ((m.map (·.asin)).Nodup →
        (((products.foldl upsertByAsin m).map (·.asin)).Nodup ∧
         ∀ a, a ∈ (products.foldl upsertByAsin m).map (·.asin) ↔
           a ∈ m.map (·.asin) ∨ a ∈ products.map (·.asin))) := by
  induction products with
  | nil => intro m hm; exact ⟨hm, fun a => by simp⟩
  | cons p rest ih =>
    intro m hm
    rw [List.foldl_cons]
    have hkeys := upsertByAsin_keys m p
    by_cases hmem : p.asin ∈ m.map (·.asin)
    · rw [if_pos hmem] at hkeys
      have hnodup : ((upsertByAsin m p).map (·.asin)).Nodup := by
        rw [hkeys]; exact hm
      obtain ⟨h1, h2⟩ := ih (upsertByAsin m p) hnodup
      refine ⟨h1, fun a => ?_⟩
      rw [h2 a, hkeys]
      simp only [List.map_cons, List.mem_cons]
      constructor
      · rintro (ha | ha)
        · exact Or.inl ha
        · exact Or.inr (Or.inr ha)
      · rintro (ha | rfl | ha)
        · exact Or.inl ha
        · exact Or.inl hmem
        · exact Or.inr ha
    · rw [if_neg hmem] at hkeys
      have hnodup : ((upsertByAsin m p).map (·.asin)).Nodup := by
        rw [hkeys]
        exact List.Nodup.append hm (List.nodup_singleton _)
          (fun a ha hb => hmem (by rwa [List.mem_singleton.mp hb] at ha))
      obtain ⟨h1, h2⟩ := ih (upsertByAsin m p) hnodup
      refine ⟨h1, fun a => ?_⟩
      rw [h2 a, hkeys]
      simp only [List.mem_append, List.mem_singleton, List.map_cons, List.mem_cons]
      tauto

/-- Claim C8 (amended): the syntactic validation is case-insensitive — two
identifiers whose trimmed forms differ only in letter case always pass or
fail `isValidASIN` together — but identifiers are *never* case-normalised
afterwards: `aggregateByAsin` keys groups by the verbatim identifier
string (its keys are exactly the distinct input identifiers, verbatim),
so two rows whose identifiers differ in case are grouped under two
distinct keys, not one. -/
theorem asin_case_handling :
    (∀ s t : String, sameUpToCase (jsTrim s) (jsTrim t) →
      isValidASIN s = isValidASIN t) ∧
    (∀ products : List ProductRow,
      ((aggregateByAsin products).map (·.asin)).Nodup ∧
      ∀ a, a ∈ (aggregateByAsin products).map (·.asin) ↔
        a ∈ products.map (·.asin)) := by
  refine ⟨isValidASIN_case, fun products => ?_⟩
  have hmap : (aggregateByAsin products).map (·.asin)
      = (products.foldl upsertByAsin []).map (·.asin) := by
    unfold aggregateByAsin
    rw [List.map_map]
    rfl
  obtain ⟨h1, h2⟩ := foldl_upsert_keys products [] (by simp)
  rw [hmap]
  exact ⟨h1, fun a => by rw [h2 a]; simp⟩

/-- The two case-variant rows of the C8 counterexample. -/
def rowUpperA : ProductRow :=
  { asin := "B0000000A1", ordered_items := 5, shipped_revenue := 0
    earnings := 0, clicks := 0, items_shipped := none
    conversion_rate := none, tag := none }

/-- Lower-case variant of `rowUpperA`'s identifier. -/
def rowLowerA : ProductRow :=
  { asin := "b0000000a1", ordered_items := 3, shipped_revenue := 0
    earnings := 0, clicks := 0, items_shipped := none
    conversion_rate := none, tag := none }

/-- Counterexample to C8 as stated: `"B0000000A1"` and `"b0000000a1"`
both pass validation (the pattern is case-insensitive), but aggregation
groups them under two distinct keys — no case normalisation happens
before use. -/
theorem asin_case_counterexample :
    isValidASIN "B0000000A1" = true ∧
    isValidASIN "b0000000a1" = true ∧
    (aggregateByAsin [rowUpperA, rowLowerA]).map (·.asin)
      = ["B0000000A1", "b0000000a1"] ∧
    (aggregateByAsin [rowUpperA, rowLowerA]).length ≠ 1 := by
  refine ⟨by decide, by decide, by decide, by decide⟩

/-- Witness for C8 (amended) at the counterexample's identifier pair. -/
theorem asin_case_handling_witness :
    sameUpToCase (jsTrim "b0000000a1") (jsTrim "B0000000A1") ∧
    isValidASIN "b0000000a1" = isValidASIN "B0000000A1" :=
  ⟨by decide, asin_case_handling.1 "b0000000a1" "B0000000A1" (by decide)⟩

/-!
## Claims C9 and C10 — ranking and truncation
-/

theorem rankProducts_rank (l : List AggProduct) (rankBy : String)
    (out : List AggProduct) (h : rankProducts l rankBy = .ok out) :
    ∀ i (hi : i < out.length), (out.get ⟨i, hi⟩).rank = some (i + 1) := by
  unfold rankProducts at h
  cases hk : RANKING_STRATEGIES rankBy with
  | none => rw [hk] at h; cases h
  | some key =>
    rw [hk] at h
    injection h with h
    subst h
    intro i hi
    rw [List.get_eq_getElem]
    simp

theorem aggregateAndRank_products_pos (products : List ProductRow)
    (rankBy : String) (filters : Filters) (t : ℤ) (ht : 0 < t) :
    (aggregateAndRank products
      { rankBy := rankBy, topN := some t, filters := filters }).products
      = (match rankProducts (filterProducts (aggregateByAsin products) filters)
          rankBy with
        | .ok ranked => ranked.take t.toNat
        | .error _ => []) := by
  unfold aggregateAndRank
  cases hr : rankProducts (filterProducts (aggregateByAsin products) filters)
      rankBy with
  | error e => simp [hr]
  | ok ranked =>
    have htruthy : jsTruthyInt (some t) = true := by
      simp [jsTruthyInt]
      omega
    have hslice : jsSliceEnd ranked t = ranked.take t.toNat := by
      unfold jsSliceEnd
      rw [if_neg (by omega)]
    simp [hr, htruthy, hslice]

/-- Claim C9: for every line-item set, filter set, ranking key and pair of
positive `topN` values `t₁ ≤ t₂`, `aggregateAndRank` assigns ranks before
truncation: the `t₁`-truncated result is a prefix of the `t₂`-truncated
result, and in both results the product at position `i` carries rank
`i + 1` — its position in the ranked *filtered full* list — so a product
returned under both `topN` choices carries the same rank in both, and
ranks are never renumbered after truncation. -/
theorem rank_stable_across_topN (products : List ProductRow) (rankBy : String)
    (filters : Filters) (t₁ t₂ : ℤ) (h1 : 0 < t₁) (h12 : t₁ ≤ t₂) :
    (aggregateAndRank products
      { rankBy := rankBy, topN := some t₁, filters := filters }).products <+:
      (aggregateAndRank products
        { rankBy := rankBy, topN := some t₂, filters := filters }).products ∧
    (∀ i (hi : i < (aggregateAndRank products
        { rankBy := rankBy, topN := some t₁, filters := filters }).products.length),
      ((aggregateAndRank products
        { rankBy := rankBy, topN := some t₁, filters := filters }).products.get
          ⟨i, hi⟩).rank = some (i + 1)) ∧
    (∀ i (hi : i < (aggregateAndRank products
        { rankBy := rankBy, topN := some t₂, filters := filters }).products.length),
      ((aggregateAndRank products
        { rankBy := rankBy, topN := some t₂, filters := filters }).products.get
          ⟨i, hi⟩).rank = some (i + 1)) := by
  have e₁ := aggregateAndRank_products_pos products rankBy filters t₁ h1
  have e₂ := aggregateAndRank_products_pos products rankBy filters t₂
    (lt_of_lt_of_le h1 h12)
  cases hr : rankProducts (filterProducts (aggregateByAsin products) filters)
      rankBy with
  | error e =>
    rw [hr] at e₁ e₂
    rw [e₁, e₂]
    exact ⟨⟨[], rfl⟩, fun i hi => absurd hi (by simp),
      fun i hi => absurd hi (by simp)⟩
  | ok ranked =>
    rw [hr] at e₁ e₂
    rw [e₁, e₂]
    refine ⟨?_, ?_, ?_⟩
    · rw [List.take_isPrefix_take]
      exact Or.inl (Int.toNat_le_toNat h12)
    · intro i hi
      have hi' : i < ranked.length := by
        rw [List.length_take] at hi
        omega
      rw [List.get_eq_getElem, List.getElem_take]
      have := rankProducts_rank _ _ _ hr i hi'
      rw [List.get_eq_getElem] at this
      exact this
    · intro i hi
      have hi' : i < ranked.length := by
        rw [List.length_take] at hi
        omega
      rw [List.get_eq_getElem, List.getElem_take]
      have := rankProducts_rank _ _ _ hr i hi'
      rw [List.get_eq_getElem] at this
      exact this

/-- The aggregated rows of the C9 witness. -/
def rowsW9 : List ProductRow :=
  [{ asin := "B0000000E5", ordered_items := 7, shipped_revenue := 0
     earnings := 0, clicks := 0, items_shipped := none
     conversion_rate := none, tag := none },
   { asin := "B0000000F6", ordered_items := 2, shipped_revenue := 0
     earnings := 0, clicks := 0, items_shipped := none
     conversion_rate := none, tag := none }]

/-- Witness for C9 at a concrete two-product instance with
`topN = 1` and `topN = 2`. -/
theorem rank_stable_across_topN_witness :
    (0 : ℤ) < 1 ∧ (1 : ℤ) ≤ 2 ∧
    (aggregateAndRank rowsW9
      { rankBy := "ordered_items", topN := some 1, filters := {} }).products <+:
      (aggregateAndRank rowsW9
        { rankBy := "ordered_items", topN := some 2, filters := {} }).products :=
  ⟨by decide, by decide,
   (rank_stable_across_topN rowsW9 "ordered_items" {} 1 2 (by decide) (by decide)).1⟩

/-- Claim C10: a falsy `topN` (`0` as much as `null`/`undefined`) skips
truncation entirely: `aggregateAndRank` with `topN = 0` returns exactly
the same result as with no `topN` at all — the entire ranked list, not an
empty one — so a caller cannot request zero products via `topN`. -/
theorem topN_zero_returns_all (products : List ProductRow) (options : AggOptions) :
    aggregateAndRank products { options with topN := some 0 }
      = aggregateAndRank products { options with topN := none } ∧
    (aggregateAndRank products { options with topN := some 0 }).products
      = (match rankProducts (filterProducts (aggregateByAsin products)
          options.filters) options.rankBy with
        | .ok ranked => ranked
        | .error _ => []) := by
  unfold aggregateAndRank
  cases hr : rankProducts (filterProducts (aggregateByAsin products)
      options.filters) options.rankBy with
  | error e => simp [hr]
  | ok ranked => simp [hr, jsTruthyInt]

end AAApi
